/-
Verification of the two migration example scripts of this repository:
`examples/migration/CreateCompleteCampaignGoogleAdsApiOnly.py` (namespace
`ApiOnly`) and `examples/migration/CreateCompleteCampaignBothApisPhase1.py`
(namespace `Phase1`).

Both scripts run a sequential provisioning pipeline
Budget -> Campaign -> AdGroup -> TextAds -> Keywords against remote
advertising APIs.  The remote services are modelled as oracles (structures of
functions returning `Except Err` values); nondeterministic environment inputs
(uuid strings, formatted dates) are explicit parameters.  Every step function
returns the list of remote calls it issued (its trace of `Event`s) together
with its result; a Python exception raised by a remote call, or a Python
`IndexError` from indexing an empty response, is an `Except.error` that the
callers propagate exactly as the scripts do (neither script contains any
try/except handler).
-/
import Mathlib

set_option autoImplicit false
set_option maxRecDepth 4000

/-- An exception: either one raised by a remote call, or a Python
`IndexError` raised by indexing a response sequence out of range. -/
inductive Err where
  | remote (msg : String)
  | indexError
deriving DecidableEq, Repr

/- ### Google Ads API (gRPC-style) request and response messages -/

/-- One entry of a Google Ads mutate response: `results[i].resource_name`. -/
structure MutateResult where
  resource_name : String
deriving DecidableEq, Repr

/-- A Google Ads mutate response (`response.results`). -/
structure MutateResponse where
  results : List MutateResult
deriving DecidableEq, Repr

/-- `operation.create` of a `CampaignBudgetOperation`: the fields the scripts
set (`name.value`, `delivery_method`, `amount_micros.value`). -/
structure CampaignBudgetCreate where
  name : String
  delivery_method : String
  amount_micros : Nat
deriving DecidableEq, Repr

/-- A `CampaignBudgetOperation` with its `create` payload. -/
structure CampaignBudgetOperation where
  create : CampaignBudgetCreate
deriving DecidableEq, Repr

/-- `campaign.network_settings` as set by the ApiOnly script. -/
structure NetworkSettings where
  target_google_search : Bool
  target_search_network : Bool
  target_content_network : Bool
  target_partner_search_network : Bool
deriving DecidableEq, Repr

/-- `operation.create` of a `CampaignOperation`: the fields set by the
ApiOnly script's `createCampaign`. -/
structure CampaignCreate where
  name : String
  advertising_channel_type : String
  status : String
  manual_cpc_enhanced_cpc_enabled : Bool
  campaign_budget : String
  network_settings : NetworkSettings
  start_date : String
  end_date : String
deriving DecidableEq, Repr

/-- A `CampaignOperation` with its `create` payload. -/
structure CampaignOperation where
  create : CampaignCreate
deriving DecidableEq, Repr

/-- `operation.create` of an `AdGroupOperation` (ApiOnly `createAdGroup`). -/
structure AdGroupCreate where
  name : String
  campaign : String
  status : String
  type : String
  cpc_bid_micros : Nat
deriving DecidableEq, Repr

/-- An `AdGroupOperation` with its `create` payload. -/
structure AdGroupOperation where
  create : AdGroupCreate
deriving DecidableEq, Repr

/-- `operation.create` of an `AdGroupAdOperation` (ApiOnly `createTextAds`):
`ad_group.value`, `status`, the expanded-text-ad fields and `ad.final_urls`. -/
structure AdGroupAdCreate where
  ad_group : String
  status : String
  headline_part1 : String
  headline_part2 : String
  description : String
  final_urls : List String
deriving DecidableEq, Repr

/-- An `AdGroupAdOperation` with its `create` payload. -/
structure AdGroupAdOperation where
  create : AdGroupAdCreate
deriving DecidableEq, Repr

/-- `operation.create` of an `AdGroupCriterionOperation` (ApiOnly
`createKeywords`): `ad_group.value`, `status`, `keyword.text.value` and
`keyword.match_type`. -/
structure AdGroupCriterionCreate where
  ad_group : String
  status : String
  keyword_text : String
  keyword_match_type : String
deriving DecidableEq, Repr

/-- An `AdGroupCriterionOperation` with its `create` payload. -/
structure AdGroupCriterionOperation where
  create : AdGroupCriterionCreate
deriving DecidableEq, Repr

/- ### Entities materialised by Google Ads search rows -/

/-- A `CampaignBudget` message as selected by the budget query
(`campaign_budget.id`, `.name`, `.resource_name`). -/
structure CampaignBudget where
  id : Nat
  name : String
  resource_name : String
deriving DecidableEq, Repr

/-- A `Campaign` message as selected by the campaign query. -/
structure Campaign where
  id : Nat
  name : String
  resource_name : String
deriving DecidableEq, Repr

/-- An `AdGroup` message as selected by the ad-group query. -/
structure AdGroup where
  id : Nat
  name : String
  resource_name : String
deriving DecidableEq, Repr

/-- An `AdGroupAd` message as selected by the ads query in `getAds`. -/
structure AdGroupAd where
  ad_id : Nat
  status : String
  headline_part1 : String
  headline_part2 : String
  resource_name : String
deriving DecidableEq, Repr

/-- An `AdGroupCriterion` message as selected by the query in `getKeywords`. -/
structure AdGroupCriterion where
  criterion_id : Nat
  keyword_text : String
  keyword_match_type : String
  resource_name : String
deriving DecidableEq, Repr

/-- One `GoogleAdsRow` of a search response.  A real row only populates the
fields named by the query; the model carries all of them. -/
structure GoogleAdsRow where
  campaign_budget : CampaignBudget
  campaign : Campaign
  ad_group : AdGroup
  ad_group_ad : AdGroupAd
  ad_group_criterion : AdGroupCriterion
deriving DecidableEq, Repr

/- ### AdWords API (SOAP-style) operations, as used by the Phase1 script -/

/-- The nested `biddingStrategyConfiguration` dict of the campaign operand. -/
structure AWBiddingStrategyConfiguration where
  biddingStrategyType : String
deriving DecidableEq, Repr

/-- The nested `budget` dict of the campaign operand (only `budgetId`). -/
structure AWBudgetRef where
  budgetId : Nat
deriving DecidableEq, Repr

/-- The nested `networkSetting` dict of the campaign operand. -/
structure AWNetworkSetting where
  targetGoogleSearch : String
  targetSearchNetwork : String
deriving DecidableEq, Repr

/-- The campaign dict built by Phase1 `createCampaign`. -/
structure AWCampaign where
  name : String
  advertisingChannelType : String
  status : String
  biddingStrategyConfiguration : AWBiddingStrategyConfiguration
  startDate : String
  endDate : String
  budget : AWBudgetRef
  networkSetting : AWNetworkSetting
deriving DecidableEq, Repr

/-- An AdWords campaign operation dict: operator `ADD` plus operand. -/
structure AWCampaignOperation where
  operator : String
  operand : AWCampaign
deriving DecidableEq, Repr

/-- The nested CpcBid dict of the ad-group operand (`bid.microAmount`). -/
structure AWCpcBid where
  microAmount : Nat
deriving DecidableEq, Repr

/-- The nested `biddingStrategyConfiguration` dict of the ad-group operand. -/
structure AWAdGroupBSC where
  bids : List AWCpcBid
deriving DecidableEq, Repr

/-- The ad-group dict built by Phase1 `createAdGroup`. -/
structure AWAdGroup where
  name : String
  campaignId : Nat
  status : String
  biddingStrategyConfiguration : AWAdGroupBSC
  adGroupAdRotationMode : String
deriving DecidableEq, Repr

/-- An AdWords ad-group operation dict: operator `ADD` plus operand. -/
structure AWAdGroupOperation where
  operator : String
  operand : AWAdGroup
deriving DecidableEq, Repr

/-- The nested expanded-text-ad dict of the AdGroupAd operand. -/
structure AWExpandedTextAd where
  headlinePart1 : String
  headlinePart2 : String
  headlinePart3 : String
  description : String
  description2 : String
  finalUrls : List String
deriving DecidableEq, Repr

/-- The AdGroupAd operand dict built by Phase1 `createTextAds`. -/
structure AWAdGroupAd where
  adGroupId : Nat
  status : String
  ad : AWExpandedTextAd
deriving DecidableEq, Repr

/-- An AdWords ad-group-ad operation dict: operator `ADD` plus operand. -/
structure AWAdGroupAdOperation where
  operator : String
  operand : AWAdGroupAd
deriving DecidableEq, Repr

/-- The nested `criterion` dict of the keyword operand (`xsi_type Keyword`). -/
structure AWKeywordCriterion where
  text : String
  matchType : String
deriving DecidableEq, Repr

/-- The BiddableAdGroupCriterion operand dict built by Phase1
`createKeywords`. -/
structure AWBiddableAdGroupCriterion where
  adGroupId : Nat
  criterion : AWKeywordCriterion
  userStatus : String
  finalUrls : List String
deriving DecidableEq, Repr

/-- An AdWords keyword operation dict: operator `ADD` plus operand. -/
structure AWKeywordOperation where
  operator : String
  operand : AWBiddableAdGroupCriterion
deriving DecidableEq, Repr

/-- The entity dict (`results['value'][i]`) an AdWords mutate returns for
campaigns and ad groups: the script reads `id` and `name`. -/
structure AWCreatedEntity where
  id : Nat
  name : String
deriving DecidableEq, Repr

/- ### Remote calls (trace events) and servers -/

/-- One remote call issued by a script, with the request it carried.  No
delete or remove call exists anywhere in either script, so no such event
constructor exists. -/
inductive Event where
  | mutateCampaignBudgets (customerId : String) (ops : List CampaignBudgetOperation)
  | mutateCampaigns (customerId : String) (ops : List CampaignOperation)
  | mutateAdGroups (customerId : String) (ops : List AdGroupOperation)
  | mutateAdGroupAds (customerId : String) (ops : List AdGroupAdOperation)
  | mutateAdGroupCriteria (customerId : String) (ops : List AdGroupCriterionOperation)
  | searchGA (customerId : String) (query : String) (page_size : Nat)
  | awMutateCampaigns (ops : List AWCampaignOperation)
  | awMutateAdGroups (ops : List AWAdGroupOperation)
  | awMutateAdGroupAds (ops : List AWAdGroupAdOperation)
  | awMutateAdGroupCriteria (ops : List AWKeywordOperation)
deriving DecidableEq, Repr

/-- The Google Ads remote services: each method either returns a response or
raises (`Except.error`). -/
structure GAServer where
  mutate_campaign_budgets : String → List CampaignBudgetOperation → Except Err MutateResponse
  mutate_campaigns : String → List CampaignOperation → Except Err MutateResponse
  mutate_ad_groups : String → List AdGroupOperation → Except Err MutateResponse
  mutate_ad_group_ads : String → List AdGroupAdOperation → Except Err MutateResponse
  mutate_ad_group_criteria : String → List AdGroupCriterionOperation → Except Err MutateResponse
  search : String → String → Nat → Except Err (List GoogleAdsRow)

/-- The AdWords remote services; each `mutate` returns `results['value']`. -/
structure AWServer where
  campaignMutate : List AWCampaignOperation → Except Err (List AWCreatedEntity)
  adGroupMutate : List AWAdGroupOperation → Except Err (List AWCreatedEntity)
  adGroupAdMutate : List AWAdGroupAdOperation → Except Err (List AWCreatedEntity)
  adGroupCriterionMutate : List AWKeywordOperation → Except Err (List AWCreatedEntity)

/-- Environment inputs a run consumes: the uuid fragments interpolated into
names/headlines (`uuid.uuid4()`, already truncated where the script slices
them) and the `strftime`-formatted start and end dates. -/
structure Env where
  budgetUuid : String
  campaignUuid : String
  adGroupUuid : String
  adUuid : Nat → String
  startDate : String
  endDate : String

/-- Python `repr` of a plain string without special characters, as used by
the `formatter` helpers nested in `getAds` and `getKeywords`. -/
def pyRepr (s : String) : String :=
  "'" ++ s ++ "'"

/-- Hexadecimal digit (uppercase), for percent-encoding. -/
def hexDigit (n : Nat) : Char :=
  if n < 10 then Char.ofNat (48 + n) else Char.ofNat (55 + n)

/-- Characters `urllib.parse.quote` leaves unescaped with the default
`safe` argument: alphanumerics, `_.-~` and `/`. -/
def quoteSafe (c : Char) : Bool :=
  c.isAlphanum || c = '_' || c = '.' || c = '-' || c = '~' || c = '/'

/-- `urllib.parse.quote` on ASCII input: percent-encode every unsafe byte. -/
def urlquote (s : String) : String :=
  String.join (s.data.map fun c =>
    if quoteSafe c then String.singleton c
    else "%" ++ String.mk [hexDigit (c.toNat / 16 % 16), hexDigit (c.toNat % 16)])

/-- `results[i]` for `i` in `idx, idx+1, ..., idx+n-1`, collecting
`resource_name`s; raises `IndexError` at the first missing index, exactly as
the Python loops `for i in range(n): names.append(results[i].resource_name)`
do. -/
def extractFrom (results : List MutateResult) (idx : Nat) : Nat → Except Err (List String)
  | 0 => Except.ok []
  | n + 1 =>
    match results[idx]? with
    | none => Except.error Err.indexError
    | some r =>
      match extractFrom results (idx + 1) n with
      | Except.error e => Except.error e
      | Except.ok rest => Except.ok (r.resource_name :: rest)

/-- The resource names of `results[0] .. results[n-1]`. -/
def extractNames (results : List MutateResult) (n : Nat) : Except Err (List String) :=
  extractFrom results 0 n

namespace ApiOnly

/-- `NUMBER_OF_ADS` of CreateCompleteCampaignGoogleAdsApiOnly.py. -/
def NUMBER_OF_ADS : Nat := 5

/-- `KEYWORDS_TO_ADD` of CreateCompleteCampaignGoogleAdsApiOnly.py. -/
def KEYWORDS_TO_ADD : List String := ["mars cruise", "space hotel"]

/-- `PAGE_SIZE` of CreateCompleteCampaignGoogleAdsApiOnly.py. -/
def PAGE_SIZE : Nat := 1000

/-- The `CampaignBudgetOperation` built by `createCampaignBudget`. -/
def budgetOperation (uuid : String) : CampaignBudgetOperation :=
  { create :=
    { name := "Interplanetary Cruise Budget #" ++ uuid
      delivery_method := "STANDARD"
      amount_micros := 500000 } }

/-- The query string `getCampaignBudget` builds (note the trailing space the
`'%s' ` format leaves). -/
def budgetQuery (resource_name : String) : String :=
  "SELECT campaign_budget.id, campaign_budget.name, " ++
  "campaign_budget.resource_name FROM campaign_budget WHERE " ++
  "campaign_budget.resource_name = '" ++ resource_name ++ "' "

/-- `getCampaignBudget`: one search call, then `list(response)[0]`. -/
def getCampaignBudget (srv : GAServer) (customerId resource_name : String) :
    List Event × Except Err CampaignBudget :=
  let query := budgetQuery resource_name
  ([Event.searchGA customerId query PAGE_SIZE],
   match srv.search customerId query PAGE_SIZE with
   | Except.error e => Except.error e
   | Except.ok rows =>
     match rows with
     | [] => Except.error Err.indexError
     | row :: _ => Except.ok row.campaign_budget)

/-- `createCampaignBudget`: build the operation, mutate, take
`response.results[0].resource_name`, then fetch the budget back. -/
def createCampaignBudget (srv : GAServer) (uuid customer_id : String) :
    List Event × Except Err CampaignBudget :=
  let operation := budgetOperation uuid
  let ev := Event.mutateCampaignBudgets customer_id [operation]
  match srv.mutate_campaign_budgets customer_id [operation] with
  | Except.error e => ([ev], Except.error e)
  | Except.ok response =>
    match response.results with
    | [] => ([ev], Except.error Err.indexError)
    | r :: _ =>
      let p := getCampaignBudget srv customer_id r.resource_name
      (ev :: p.1, p.2)

/-- The `CampaignOperation` built by `createCampaign`: the campaign
references the budget by `campaignBudget.resource_name`. -/
def campaignOperation (uuid startDate endDate budgetResourceName : String) :
    CampaignOperation :=
  { create :=
    { name := "Interplanetary Cruise#" ++ uuid
      advertising_channel_type := "SEARCH"
      status := "PAUSED"
      manual_cpc_enhanced_cpc_enabled := true
      campaign_budget := budgetResourceName
      network_settings :=
      { target_google_search := true
        target_search_network := true
        target_content_network := false
        target_partner_search_network := false }
      start_date := startDate
      end_date := endDate } }

/-- The query string `getCampaign` builds. -/
def campaignQuery (campaignResourceName : String) : String :=
  "SELECT campaign.id, campaign.name, campaign.resource_name " ++
  "FROM campaign WHERE campaign.resource_name = '" ++ campaignResourceName ++ "' "

/-- `getCampaign`: one search call, then `list(response)[0]`. -/
def getCampaign (srv : GAServer) (customerId campaignResourceName : String) :
    List Event × Except Err Campaign :=
  let query := campaignQuery campaignResourceName
  ([Event.searchGA customerId query PAGE_SIZE],
   match srv.search customerId query PAGE_SIZE with
   | Except.error e => Except.error e
   | Except.ok rows =>
     match rows with
     | [] => Except.error Err.indexError
     | row :: _ => Except.ok row.campaign)

/-- `createCampaign`: build the operation from the fetched budget, mutate,
take `results[0].resource_name`, fetch the campaign back. -/
def createCampaign (srv : GAServer) (uuid startDate endDate customerId : String)
    (campaignBudget : CampaignBudget) : List Event × Except Err Campaign :=
  let operation := campaignOperation uuid startDate endDate campaignBudget.resource_name
  let ev := Event.mutateCampaigns customerId [operation]
  match srv.mutate_campaigns customerId [operation] with
  | Except.error e => ([ev], Except.error e)
  | Except.ok response =>
    match response.results with
    | [] => ([ev], Except.error Err.indexError)
    | r :: _ =>
      let p := getCampaign srv customerId r.resource_name
      (ev :: p.1, p.2)

/-- The `AdGroupOperation` built by `createAdGroup`: references the campaign
by `campaign.resource_name`. -/
def adGroupOperation (uuid campaignResourceName : String) : AdGroupOperation :=
  { create :=
    { name := "Earth to Mars Cruises #" ++ uuid
      campaign := campaignResourceName
      status := "ENABLED"
      type := "SEARCH_STANDARD"
      cpc_bid_micros := 10000000 } }

/-- The query string `getAdGroup` builds. -/
def adGroupQuery (adGroupResourceName : String) : String :=
  "SELECT ad_group.id, ad_group.name, ad_group.resource_name " ++
  "FROM ad_group WHERE ad_group.resource_name = '" ++ adGroupResourceName ++ "' "

/-- `getAdGroup`: one search call, then `list(response)[0]`. -/
def getAdGroup (srv : GAServer) (customerId adGroupResourceName : String) :
    List Event × Except Err AdGroup :=
  let query := adGroupQuery adGroupResourceName
  ([Event.searchGA customerId query PAGE_SIZE],
   match srv.search customerId query PAGE_SIZE with
   | Except.error e => Except.error e
   | Except.ok rows =>
     match rows with
     | [] => Except.error Err.indexError
     | row :: _ => Except.ok row.ad_group)

/-- `createAdGroup`: build the operation from the fetched campaign, mutate,
take `results[0].resource_name`, fetch the ad group back. -/
def createAdGroup (srv : GAServer) (uuid customerId : String)
    (campaign : Campaign) : List Event × Except Err AdGroup :=
  let operation := adGroupOperation uuid campaign.resource_name
  let ev := Event.mutateAdGroups customerId [operation]
  match srv.mutate_ad_groups customerId [operation] with
  | Except.error e => ([ev], Except.error e)
  | Except.ok response =>
    match response.results with
    | [] => ([ev], Except.error Err.indexError)
    | r :: _ =>
      let p := getAdGroup srv customerId r.resource_name
      (ev :: p.1, p.2)

/-- One `AdGroupAdOperation` built by an iteration of the loop in
`createTextAds`: references the ad group by `adGroup.resource_name`. -/
def adGroupAdOperation (uuid adGroupResourceName : String) : AdGroupAdOperation :=
  { create :=
    { ad_group := adGroupResourceName
      status := "PAUSED"
      headline_part1 := "Cruise to Mars #" ++ uuid
      headline_part2 := "Best Space Cruise Line"
      description := "Buy your tickets now!"
      final_urls := ["http://www.example.com"] } }

/-- The `','.join(repr(i) for i in myst)` helper nested in `getAds` and
`getKeywords`. -/
def formatter (myst : List String) : String :=
  String.intercalate "," (myst.map pyRepr)

/-- The query string `getAds` builds over the new ads' resource names. -/
def adsQuery (newAdResourceNames : List String) : String :=
  "SELECT ad_group_ad.ad.id, " ++
  "ad_group_ad.ad.expanded_text_ad.headline_part1, " ++
  "ad_group_ad.ad.expanded_text_ad.headline_part2, " ++
  "ad_group_ad.status, ad_group_ad.ad.final_urls, " ++
  "ad_group_ad.resource_name " ++
  "FROM ad_group_ad " ++
  "WHERE ad_group_ad.resource_name in (" ++ formatter newAdResourceNames ++ ")"

/-- `getAds`: one search call, returning every row's `ad_group_ad`. -/
def getAds (srv : GAServer) (customerId : String) (newAdResourceNames : List String) :
    List Event × Except Err (List AdGroupAd) :=
  let query := adsQuery newAdResourceNames
  ([Event.searchGA customerId query PAGE_SIZE],
   match srv.search customerId query PAGE_SIZE with
   | Except.error e => Except.error e
   | Except.ok rows => Except.ok (rows.map fun row => row.ad_group_ad))

/-- `createTextAds`: build `NUMBER_OF_ADS` operations, one batch mutate,
extract `results[i].resource_name` for each `i < NUMBER_OF_ADS`, fetch the
ads back for logging. -/
def createTextAds (srv : GAServer) (uuidf : Nat → String) (customerId : String)
    (adGroup : AdGroup) : List Event × Except Err Unit :=
  let operations := (List.range NUMBER_OF_ADS).map fun i =>
    adGroupAdOperation (uuidf i) adGroup.resource_name
  let ev := Event.mutateAdGroupAds customerId operations
  match srv.mutate_ad_group_ads customerId operations with
  | Except.error e => ([ev], Except.error e)
  | Except.ok response =>
    match extractNames response.results NUMBER_OF_ADS with
    | Except.error e => ([ev], Except.error e)
    | Except.ok newAdResourceNames =>
      let p := getAds srv customerId newAdResourceNames
      (ev :: p.1,
       match p.2 with
       | Except.error e => Except.error e
       | Except.ok _ => Except.ok ())

/-- One `AdGroupCriterionOperation` built by an iteration of the loop in
`createKeywords`: match type `EXACT`, status `ENABLED`. -/
def keywordOperation (adGroupResourceName keyword : String) :
    AdGroupCriterionOperation :=
  { create :=
    { ad_group := adGroupResourceName
      status := "ENABLED"
      keyword_text := keyword
      keyword_match_type := "EXACT" } }

/-- The query string `getKeywords` builds over the new criteria's resource
names. -/
def keywordsQuery (keywordResourceNames : List String) : String :=
  "SELECT ad_group.id, ad_group.status, " ++
  "ad_group_criterion.criterion_id, ad_group_criterion.keyword.text, " ++
  "ad_group_criterion.keyword.match_type FROM ad_group_criterion " ++
  "WHERE ad_group_criterion.type = 'KEYWORD' " ++
  "AND ad_group.status = 'ENABLED' " ++
  "AND ad_group_criterion.status IN ('ENABLED', 'PAUSED') " ++
  "AND ad_group_criterion.resource_name IN (" ++ formatter keywordResourceNames ++ ")"

/-- `getKeywords`: one search call, returning every row's
`ad_group_criterion`. -/
def getKeywords (srv : GAServer) (customerId : String)
    (keywordResourceNames : List String) :
    List Event × Except Err (List AdGroupCriterion) :=
  let query := keywordsQuery keywordResourceNames
  ([Event.searchGA customerId query PAGE_SIZE],
   match srv.search customerId query PAGE_SIZE with
   | Except.error e => Except.error e
   | Except.ok rows => Except.ok (rows.map fun row => row.ad_group_criterion))

/-- `createKeywords`: one operation per element of `keywordstoadd`, one
batch mutate, extract `results[i].resource_name` for each
`i < len(keywordstoadd)`, fetch the keywords back for logging. -/
def createKeywords (srv : GAServer) (customerId : String) (adGroup : AdGroup)
    (keywordstoadd : List String) : List Event × Except Err Unit :=
  let adGroupCriterionOperations :=
    keywordstoadd.map fun keyword => keywordOperation adGroup.resource_name keyword
  let ev := Event.mutateAdGroupCriteria customerId adGroupCriterionOperations
  match srv.mutate_ad_group_criteria customerId adGroupCriterionOperations with
  | Except.error e => ([ev], Except.error e)
  | Except.ok response =>
    match extractNames response.results keywordstoadd.length with
    | Except.error e => ([ev], Except.error e)
    | Except.ok newAdResourceNames =>
      let p := getKeywords srv customerId newAdResourceNames
      (ev :: p.1,
       match p.2 with
       | Except.error e => Except.error e
       | Except.ok _ => Except.ok ())

/-- The `__main__` block of CreateCompleteCampaignGoogleAdsApiOnly.py: the
five steps in order, each consuming the previous step's returned value; an
uncaught exception in a step ends the run with the calls made so far. -/
def mainRun (srv : GAServer) (env : Env) (customer_id : String) :
    List Event × Except Err Unit :=
  match createCampaignBudget srv env.budgetUuid customer_id with
  | (t1, Except.error e) => (t1, Except.error e)
  | (t1, Except.ok budget) =>
    match createCampaign srv env.campaignUuid env.startDate env.endDate customer_id budget with
    | (t2, Except.error e) => (t1 ++ t2, Except.error e)
    | (t2, Except.ok campaign) =>
      match createAdGroup srv env.adGroupUuid customer_id campaign with
      | (t3, Except.error e) => (t1 ++ t2 ++ t3, Except.error e)
      | (t3, Except.ok adGroup) =>
        match createTextAds srv env.adUuid customer_id adGroup with
        | (t4, Except.error e) => (t1 ++ t2 ++ t3 ++ t4, Except.error e)
        | (t4, Except.ok _) =>
          match createKeywords srv customer_id adGroup KEYWORDS_TO_ADD with
          | (t5, r5) => (t1 ++ t2 ++ t3 ++ t4 ++ t5, r5)

end ApiOnly

namespace Phase1

/-- `NUMBER_OF_ADS` of CreateCompleteCampaignBothApisPhase1.py. -/
def NUMBER_OF_ADS : Nat := 5

/-- `KEYWORDS_TO_ADD` of CreateCompleteCampaignBothApisPhase1.py. -/
def KEYWORDS_TO_ADD : List String := ["mars cruise", "space hotel"]

/-- `PAGE_SIZE` of CreateCompleteCampaignBothApisPhase1.py. -/
def PAGE_SIZE : Nat := 1000

/-- The `CampaignBudgetOperation` built by Phase1 `createCampaignBudget`
(Google Ads API v2; same fields as the ApiOnly script). -/
def budgetOperation (uuid : String) : CampaignBudgetOperation :=
  { create :=
    { name := "Interplanetary Cruise Budget #" ++ uuid
      delivery_method := "STANDARD"
      amount_micros := 500000 } }

/-- The query string Phase1 `getCampaignBudget` builds (the `'\x7b\x7d'`
format leaves no trailing space here, unlike the ApiOnly script). -/
def budgetQuery (resource_name : String) : String :=
  "SELECT campaign_budget.id, campaign_budget.name, " ++
  "campaign_budget.resource_name FROM campaign_budget WHERE " ++
  "campaign_budget.resource_name = '" ++ resource_name ++ "'"

/-- Phase1 `getCampaignBudget`: one search call, then `list(response)[0]`. -/
def getCampaignBudget (srv : GAServer) (customerId resource_name : String) :
    List Event × Except Err CampaignBudget :=
  let query := budgetQuery resource_name
  ([Event.searchGA customerId query PAGE_SIZE],
   match srv.search customerId query PAGE_SIZE with
   | Except.error e => Except.error e
   | Except.ok rows =>
     match rows with
     | [] => Except.error Err.indexError
     | row :: _ => Except.ok row.campaign_budget)

/-- Phase1 `createCampaignBudget`: build the operation, mutate, take
`response.results[0].resource_name`, then fetch the budget back. -/
def createCampaignBudget (srv : GAServer) (uuid customer_id : String) :
    List Event × Except Err CampaignBudget :=
  let operation := budgetOperation uuid
  let ev := Event.mutateCampaignBudgets customer_id [operation]
  match srv.mutate_campaign_budgets customer_id [operation] with
  | Except.error e => ([ev], Except.error e)
  | Except.ok response =>
    match response.results with
    | [] => ([ev], Except.error Err.indexError)
    | r :: _ =>
      let p := getCampaignBudget srv customer_id r.resource_name
      (ev :: p.1, p.2)

/-- The campaign dict built by Phase1 `createCampaign`: references the
budget by its numeric id (`'budget': \x7b'budgetId': budgetId\x7d`). -/
def campaignOperationAW (uuid startDate endDate : String) (budgetId : Nat) :
    AWCampaignOperation :=
  { operator := "ADD"
    operand :=
    { name := "Interplanetary Cruise #" ++ uuid
      advertisingChannelType := "SEARCH"
      status := "PAUSED"
      biddingStrategyConfiguration := { biddingStrategyType := "MANUAL_CPC" }
      startDate := startDate
      endDate := endDate
      budget := { budgetId := budgetId }
      networkSetting :=
      { targetGoogleSearch := "true"
        targetSearchNetwork := "true" } } }

/-- Phase1 `createCampaign` (AdWords API): one mutate with one ADD
operation; returns `results['value'][0]['id']`. -/
def createCampaign (srv : AWServer) (uuid startDate endDate : String)
    (budgetId : Nat) : List Event × Except Err Nat :=
  let campaign_operations := [campaignOperationAW uuid startDate endDate budgetId]
  ([Event.awMutateCampaigns campaign_operations],
   match srv.campaignMutate campaign_operations with
   | Except.error e => Except.error e
   | Except.ok value =>
     match value with
     | [] => Except.error Err.indexError
     | createdCampaign :: _ => Except.ok createdCampaign.id)

/-- The ad-group dict built by Phase1 `createAdGroup`: references the
campaign by its numeric id. -/
def adGroupOperationAW (uuid : String) (campaign_id : Nat) : AWAdGroupOperation :=
  { operator := "ADD"
    operand :=
    { name := "Earth to Mars Cruise #" ++ uuid
      campaignId := campaign_id
      status := "ENABLED"
      biddingStrategyConfiguration := { bids := [{ microAmount := 10000000 }] }
      adGroupAdRotationMode := "OPTIMIZE" } }

/-- Phase1 `createAdGroup` (AdWords API): one mutate with one ADD operation;
returns `results['value'][0]['id']`. -/
def createAdGroup (srv : AWServer) (uuid : String) (campaign_id : Nat) :
    List Event × Except Err Nat :=
  let adgroup_operations := [adGroupOperationAW uuid campaign_id]
  ([Event.awMutateAdGroups adgroup_operations],
   match srv.adGroupMutate adgroup_operations with
   | Except.error e => Except.error e
   | Except.ok value =>
     match value with
     | [] => Except.error Err.indexError
     | createdAdgroup :: _ => Except.ok createdAdgroup.id)

/-- One AdGroupAd operation built by an iteration of the loop in Phase1
`createTextAds`: references the ad group by its numeric id. -/
def adOperationAW (uuid : String) (adGroupId : Nat) : AWAdGroupAdOperation :=
  { operator := "ADD"
    operand :=
    { adGroupId := adGroupId
      status := "PAUSED"
      ad :=
      { headlinePart1 := "Cruise #" ++ uuid ++ " to Mars"
        headlinePart2 := "Best Space Cruise Line"
        headlinePart3 := "For Your Loved Ones"
        description := "Buy your tickets now!"
        description2 := "Discount ends soon"
        finalUrls := ["http://www.example.com/"] } } }

/-- Phase1 `createTextAds` (AdWords API): `NUMBER_OF_ADS` operations in one
batch mutate; the result loop only prints, so success yields `()`. -/
def createTextAds (srv : AWServer) (uuidf : Nat → String) (adGroupId : Nat) :
    List Event × Except Err Unit :=
  let operations := (List.range NUMBER_OF_ADS).map fun i =>
    adOperationAW (uuidf i) adGroupId
  ([Event.awMutateAdGroupAds operations],
   match srv.adGroupAdMutate operations with
   | Except.error e => Except.error e
   | Except.ok _ => Except.ok ())

/-- One keyword operation built by an iteration of the loop in Phase1
`createKeywords`: match type `BROAD`, user status `PAUSED`, and a final url
carrying the url-quoted keyword. -/
def keywordOperationAW (adGroupId : Nat) (keyword : String) : AWKeywordOperation :=
  { operator := "ADD"
    operand :=
    { adGroupId := adGroupId
      criterion :=
      { text := keyword
        matchType := "BROAD" }
      userStatus := "PAUSED"
      finalUrls := ["http://www.example.com/mars/cruise/?kw=" ++ urlquote keyword] } }

/-- Phase1 `createKeywords` (AdWords API).  The loop iterates over the
module constant `KEYWORDS_TO_ADD`, not over the `keywordsToAdd` parameter,
which is never read. -/
def createKeywords (srv : AWServer) (adGroupId : Nat)
    (keywordsToAdd : List String) : List Event × Except Err Unit :=
  let operations := KEYWORDS_TO_ADD.map fun keyword =>
    keywordOperationAW adGroupId keyword
  ([Event.awMutateAdGroupCriteria operations],
   match srv.adGroupCriterionMutate operations with
   | Except.error e => Except.error e
   | Except.ok _ => Except.ok ())

/-- The `__main__` block of CreateCompleteCampaignBothApisPhase1.py: budget
via the Google Ads client, then campaign, ad group, text ads and keywords
via the AdWords client, each step consuming the previous step's returned
value; an uncaught exception ends the run with the calls made so far. -/
def mainRun (gaSrv : GAServer) (awSrv : AWServer) (env : Env)
    (customer_id : String) : List Event × Except Err Unit :=
  match createCampaignBudget gaSrv env.budgetUuid customer_id with
  | (t1, Except.error e) => (t1, Except.error e)
  | (t1, Except.ok budget) =>
    match createCampaign awSrv env.campaignUuid env.startDate env.endDate budget.id with
    | (t2, Except.error e) => (t1 ++ t2, Except.error e)
    | (t2, Except.ok campaignId) =>
      match createAdGroup awSrv env.adGroupUuid campaignId with
      | (t3, Except.error e) => (t1 ++ t2 ++ t3, Except.error e)
      | (t3, Except.ok adGroupId) =>
        match createTextAds awSrv env.adUuid adGroupId with
        | (t4, Except.error e) => (t1 ++ t2 ++ t3 ++ t4, Except.error e)
        | (t4, Except.ok _) =>
          match createKeywords awSrv adGroupId KEYWORDS_TO_ADD with
          | (t5, r5) => (t1 ++ t2 ++ t3 ++ t4 ++ t5, r5)

end Phase1

/- ### Observations over traces -/

/-- Classify a remote call: `some k` when it is the creation call of
pipeline step `k` (0 budget, 1 campaign, 2 ad group, 3 text ads,
4 keywords, for either API), `none` for a read-only search. -/
def createKind : Event → Option Nat
  | Event.mutateCampaignBudgets _ _ => some 0
  | Event.mutateCampaigns _ _ => some 1
  | Event.mutateAdGroups _ _ => some 2
  | Event.mutateAdGroupAds _ _ => some 3
  | Event.mutateAdGroupCriteria _ _ => some 4
  | Event.searchGA _ _ _ => none
  | Event.awMutateCampaigns _ => some 1
  | Event.awMutateAdGroups _ => some 2
  | Event.awMutateAdGroupAds _ => some 3
  | Event.awMutateAdGroupCriteria _ => some 4

/-- The operations of a Google Ads budget-creation call, if the event is
one. -/
def budgetOpsOf : Event → Option (List CampaignBudgetOperation)
  | Event.mutateCampaignBudgets _ ops => some ops
  | _ => none

/-- The operations of a Google Ads ad-creation call, if the event is one. -/
def adGroupAdOpsOf : Event → Option (List AdGroupAdOperation)
  | Event.mutateAdGroupAds _ ops => some ops
  | _ => none

/-- The operations of a Google Ads keyword-creation call, if the event is
one. -/
def criterionOpsOf : Event → Option (List AdGroupCriterionOperation)
  | Event.mutateAdGroupCriteria _ ops => some ops
  | _ => none

/-- The operations of an AdWords ad-creation call, if the event is one. -/
def awAdOpsOf : Event → Option (List AWAdGroupAdOperation)
  | Event.awMutateAdGroupAds ops => some ops
  | _ => none

/-- The operations of an AdWords keyword-creation call, if the event is
one. -/
def awKwOpsOf : Event → Option (List AWKeywordOperation)
  | Event.awMutateAdGroupCriteria ops => some ops
  | _ => none

/- ### Facts about `extractFrom` / `extractNames` -/

theorem extractFrom_ok_length (results : List MutateResult) :
    ∀ (n idx : Nat) (names : List String),
      extractFrom results idx n = Except.ok names → names.length = n := by
  intro n
  induction n with
  | zero =>
    intro idx names h
    simp [extractFrom] at h
    simp [← h]
  | succ m ih =>
    intro idx names h
    unfold extractFrom at h
    cases hg : results[idx]? with
    | none => rw [hg] at h; exact absurd h (by simp)
    | some r =>
      rw [hg] at h
      cases hrec : extractFrom results (idx + 1) m with
      | error e => rw [hrec] at h; exact absurd h (by simp)
      | ok rest =>
        rw [hrec] at h
        have hnames : names = r.resource_name :: rest := by
          cases h; rfl
        subst hnames
        simp [ih (idx + 1) rest hrec]

theorem extractFrom_ok_eq (results : List MutateResult) :
    ∀ (n idx : Nat) (names : List String),
      extractFrom results idx n = Except.ok names →
      names = ((results.drop idx).take n).map (fun r => r.resource_name) := by
  intro n
  induction n with
  | zero =>
    intro idx names h
    simp [extractFrom] at h
    simp [← h]
  | succ m ih =>
    intro idx names h
    unfold extractFrom at h
    cases hg : results[idx]? with
    | none => rw [hg] at h; exact absurd h (by simp)
    | some r =>
      rw [hg] at h
      cases hrec : extractFrom results (idx + 1) m with
      | error e => rw [hrec] at h; exact absurd h (by simp)
      | ok rest =>
        rw [hrec] at h
        have hnames : names = r.resource_name :: rest := by
          cases h; rfl
        subst hnames
        have hlt : idx < results.length := by
          by_contra hge
          rw [List.getElem?_eq_none (by omega)] at hg
          cases hg
        have hdrop : results.drop idx = results[idx] :: results.drop (idx + 1) :=
          List.drop_eq_getElem_cons hlt
        have hrr : results[idx] = r := by
          have := List.getElem?_eq_getElem hlt
          rw [this] at hg
          cases hg; rfl
        rw [hdrop, hrr, List.take_succ_cons, List.map_cons, ih (idx + 1) rest hrec]

/-- `extractNames results n` succeeding returns exactly the resource names
of the first `n` mutate results, one per requested index. -/
theorem extractNames_ok (results : List MutateResult) (n : Nat) (names : List String)
    (h : extractNames results n = Except.ok names) :
    names = (results.take n).map (fun r => r.resource_name) ∧ names.length = n := by
  refine ⟨?_, extractFrom_ok_length results n 0 names h⟩
  have := extractFrom_ok_eq results n 0 names h
  simpa using this

/- ### Per-step trace characterisations, ApiOnly script -/

theorem apiOnly_createCampaignBudget_events (srv : GAServer) (u cid : String) :
    ∀ e ∈ (ApiOnly.createCampaignBudget srv u cid).1,
      e = Event.mutateCampaignBudgets cid [ApiOnly.budgetOperation u] ∨
      ∃ q n, e = Event.searchGA cid q n := by
  unfold ApiOnly.createCampaignBudget
  dsimp only
  split
  · intro e he; simp at he; subst he; exact Or.inl rfl
  · split
    · intro e he; simp at he; subst he; exact Or.inl rfl
    · intro e he
      simp [ApiOnly.getCampaignBudget] at he
      rcases he with h | h
      · exact Or.inl h
      · exact Or.inr ⟨_, _, h⟩

theorem apiOnly_createCampaignBudget_kinds (srv : GAServer) (u cid : String) :
    ((ApiOnly.createCampaignBudget srv u cid).1).filterMap createKind = [0] := by
  unfold ApiOnly.createCampaignBudget
  dsimp only
  split
  · simp [createKind]
  · split <;> simp [ApiOnly.getCampaignBudget, createKind]

theorem apiOnly_createCampaign_events (srv : GAServer) (u sd ed cid : String)
    (b : CampaignBudget) :
    ∀ e ∈ (ApiOnly.createCampaign srv u sd ed cid b).1,
      e = Event.mutateCampaigns cid [ApiOnly.campaignOperation u sd ed b.resource_name] ∨
      ∃ q n, e = Event.searchGA cid q n := by
  unfold ApiOnly.createCampaign
  dsimp only
  split
  · intro e he; simp at he; subst he; exact Or.inl rfl
  · split
    · intro e he; simp at he; subst he; exact Or.inl rfl
    · intro e he
      simp [ApiOnly.getCampaign] at he
      rcases he with h | h
      · exact Or.inl h
      · exact Or.inr ⟨_, _, h⟩

theorem apiOnly_createCampaign_kinds (srv : GAServer) (u sd ed cid : String)
    (b : CampaignBudget) :
    ((ApiOnly.createCampaign srv u sd ed cid b).1).filterMap createKind = [1] := by
  unfold ApiOnly.createCampaign
  dsimp only
  split
  · simp [createKind]
  · split <;> simp [ApiOnly.getCampaign, createKind]

theorem apiOnly_createAdGroup_events (srv : GAServer) (u cid : String)
    (c : Campaign) :
    ∀ e ∈ (ApiOnly.createAdGroup srv u cid c).1,
      e = Event.mutateAdGroups cid [ApiOnly.adGroupOperation u c.resource_name] ∨
      ∃ q n, e = Event.searchGA cid q n := by
  unfold ApiOnly.createAdGroup
  dsimp only
  split
  · intro e he; simp at he; subst he; exact Or.inl rfl
  · split
    · intro e he; simp at he; subst he; exact Or.inl rfl
    · intro e he
      simp [ApiOnly.getAdGroup] at he
      rcases he with h | h
      · exact Or.inl h
      · exact Or.inr ⟨_, _, h⟩

theorem apiOnly_createAdGroup_kinds (srv : GAServer) (u cid : String)
    (c : Campaign) :
    ((ApiOnly.createAdGroup srv u cid c).1).filterMap createKind = [2] := by
  unfold ApiOnly.createAdGroup
  dsimp only
  split
  · simp [createKind]
  · split <;> simp [ApiOnly.getAdGroup, createKind]

theorem apiOnly_createTextAds_events (srv : GAServer) (uuidf : Nat → String)
    (cid : String) (g : AdGroup) :
    ∀ e ∈ (ApiOnly.createTextAds srv uuidf cid g).1,
      e = Event.mutateAdGroupAds cid ((List.range ApiOnly.NUMBER_OF_ADS).map fun i =>
            ApiOnly.adGroupAdOperation (uuidf i) g.resource_name) ∨
      ∃ q n, e = Event.searchGA cid q n := by
  unfold ApiOnly.createTextAds
  dsimp only
  split
  · intro e he; simp at he; subst he; exact Or.inl rfl
  · split
    · intro e he; simp at he; subst he; exact Or.inl rfl
    · intro e he
      simp [ApiOnly.getAds] at he
      rcases he with h | h
      · exact Or.inl h
      · exact Or.inr ⟨_, _, h⟩

theorem apiOnly_createTextAds_kinds (srv : GAServer) (uuidf : Nat → String)
    (cid : String) (g : AdGroup) :
    ((ApiOnly.createTextAds srv uuidf cid g).1).filterMap createKind = [3] := by
  unfold ApiOnly.createTextAds
  dsimp only
  split
  · simp [createKind]
  · split <;> simp [ApiOnly.getAds, createKind]

theorem apiOnly_createKeywords_events (srv : GAServer) (cid : String)
    (g : AdGroup) (kws : List String) :
    ∀ e ∈ (ApiOnly.createKeywords srv cid g kws).1,
      e = Event.mutateAdGroupCriteria cid (kws.map fun keyword =>
            ApiOnly.keywordOperation g.resource_name keyword) ∨
      ∃ q n, e = Event.searchGA cid q n := by
  unfold ApiOnly.createKeywords
  dsimp only
  split
  · intro e he; simp at he; subst he; exact Or.inl rfl
  · split
    · intro e he; simp at he; subst he; exact Or.inl rfl
    · intro e he
      simp [ApiOnly.getKeywords] at he
      rcases he with h | h
      · exact Or.inl h
      · exact Or.inr ⟨_, _, h⟩

theorem apiOnly_createKeywords_kinds (srv : GAServer) (cid : String)
    (g : AdGroup) (kws : List String) :
    ((ApiOnly.createKeywords srv cid g kws).1).filterMap createKind = [4] := by
  unfold ApiOnly.createKeywords
  dsimp only
  split
  · simp [createKind]
  · split <;> simp [ApiOnly.getKeywords, createKind]

/- ### Per-step trace characterisations, Phase1 script -/

theorem phase1_createCampaignBudget_events (srv : GAServer) (u cid : String) :
    ∀ e ∈ (Phase1.createCampaignBudget srv u cid).1,
      e = Event.mutateCampaignBudgets cid [Phase1.budgetOperation u] ∨
      ∃ q n, e = Event.searchGA cid q n := by
  unfold Phase1.createCampaignBudget
  dsimp only
  split
  · intro e he; simp at he; subst he; exact Or.inl rfl
  · split
    · intro e he; simp at he; subst he; exact Or.inl rfl
    · intro e he
      simp [Phase1.getCampaignBudget] at he
      rcases he with h | h
      · exact Or.inl h
      · exact Or.inr ⟨_, _, h⟩

theorem phase1_createCampaignBudget_kinds (srv : GAServer) (u cid : String) :
    ((Phase1.createCampaignBudget srv u cid).1).filterMap createKind = [0] := by
  unfold Phase1.createCampaignBudget
  dsimp only
  split
  · simp [createKind]
  · split <;> simp [Phase1.getCampaignBudget, createKind]

theorem phase1_createCampaign_trace (srv : AWServer) (u sd ed : String)
    (budgetId : Nat) :
    (Phase1.createCampaign srv u sd ed budgetId).1 =
      [Event.awMutateCampaigns [Phase1.campaignOperationAW u sd ed budgetId]] :=
  rfl

theorem phase1_createAdGroup_trace (srv : AWServer) (u : String)
    (campaign_id : Nat) :
    (Phase1.createAdGroup srv u campaign_id).1 =
      [Event.awMutateAdGroups [Phase1.adGroupOperationAW u campaign_id]] :=
  rfl

theorem phase1_createTextAds_trace (srv : AWServer) (uuidf : Nat → String)
    (adGroupId : Nat) :
    (Phase1.createTextAds srv uuidf adGroupId).1 =
      [Event.awMutateAdGroupAds ((List.range Phase1.NUMBER_OF_ADS).map fun i =>
        Phase1.adOperationAW (uuidf i) adGroupId)] :=
  rfl

theorem phase1_createKeywords_trace (srv : AWServer) (adGroupId : Nat)
    (keywordsToAdd : List String) :
    (Phase1.createKeywords srv adGroupId keywordsToAdd).1 =
      [Event.awMutateAdGroupCriteria (Phase1.KEYWORDS_TO_ADD.map fun keyword =>
        Phase1.keywordOperationAW adGroupId keyword)] :=
  rfl

theorem phase1_createCampaign_kinds (srv : AWServer) (u sd ed : String)
    (budgetId : Nat) :
    ((Phase1.createCampaign srv u sd ed budgetId).1).filterMap createKind = [1] :=
  rfl

theorem phase1_createAdGroup_kinds (srv : AWServer) (u : String)
    (campaign_id : Nat) :
    ((Phase1.createAdGroup srv u campaign_id).1).filterMap createKind = [2] :=
  rfl

theorem phase1_createTextAds_kinds (srv : AWServer) (uuidf : Nat → String)
    (adGroupId : Nat) :
    ((Phase1.createTextAds srv uuidf adGroupId).1).filterMap createKind = [3] :=
  rfl

theorem phase1_createKeywords_kinds (srv : AWServer) (adGroupId : Nat)
    (keywordsToAdd : List String) :
    ((Phase1.createKeywords srv adGroupId keywordsToAdd).1).filterMap createKind = [4] :=
  rfl

/- ### Whole-run trace characterisations -/

/-- The property C1 asserts of every remote call `e` of an ApiOnly run: `e`
is one of the five creation calls, carrying exactly the request built from
the entity returned by the immediately preceding pipeline step, or a
read-only search.  Each request's single parent-reference field is pinned to
the previous step's returned resource name, so no request can reference an
identifier produced later. -/
def apiOnlyEventFromPreviousStep (srv : GAServer) (env : Env) (cid : String)
    (e : Event) : Prop :=
  e = Event.mutateCampaignBudgets cid [ApiOnly.budgetOperation env.budgetUuid] ∨
  (∃ b, (ApiOnly.createCampaignBudget srv env.budgetUuid cid).2 = Except.ok b ∧
    e = Event.mutateCampaigns cid
      [ApiOnly.campaignOperation env.campaignUuid env.startDate env.endDate b.resource_name]) ∨
  (∃ b c, (ApiOnly.createCampaignBudget srv env.budgetUuid cid).2 = Except.ok b ∧
    (ApiOnly.createCampaign srv env.campaignUuid env.startDate env.endDate cid b).2 = Except.ok c ∧
    e = Event.mutateAdGroups cid [ApiOnly.adGroupOperation env.adGroupUuid c.resource_name]) ∨
  (∃ b c g, (ApiOnly.createCampaignBudget srv env.budgetUuid cid).2 = Except.ok b ∧
    (ApiOnly.createCampaign srv env.campaignUuid env.startDate env.endDate cid b).2 = Except.ok c ∧
    (ApiOnly.createAdGroup srv env.adGroupUuid cid c).2 = Except.ok g ∧
    e = Event.mutateAdGroupAds cid ((List.range ApiOnly.NUMBER_OF_ADS).map fun i =>
      ApiOnly.adGroupAdOperation (env.adUuid i) g.resource_name)) ∨
  (∃ b c g, (ApiOnly.createCampaignBudget srv env.budgetUuid cid).2 = Except.ok b ∧
    (ApiOnly.createCampaign srv env.campaignUuid env.startDate env.endDate cid b).2 = Except.ok c ∧
    (ApiOnly.createAdGroup srv env.adGroupUuid cid c).2 = Except.ok g ∧
    e = Event.mutateAdGroupCriteria cid (ApiOnly.KEYWORDS_TO_ADD.map fun keyword =>
      ApiOnly.keywordOperation g.resource_name keyword)) ∨
  (∃ q n, e = Event.searchGA cid q n)

/-- The property C1 asserts of every remote call `e` of a Phase1 run:
`e` is one of the five creation calls, carrying exactly the request built
from the identifier returned by the immediately preceding pipeline step
(the budget entity for the campaign step, numeric ids thereafter), or a
read-only search. -/
def phase1EventFromPreviousStep (gaSrv : GAServer) (awSrv : AWServer) (env : Env)
    (cid : String) (e : Event) : Prop :=
  e = Event.mutateCampaignBudgets cid [Phase1.budgetOperation env.budgetUuid] ∨
  (∃ b, (Phase1.createCampaignBudget gaSrv env.budgetUuid cid).2 = Except.ok b ∧
    e = Event.awMutateCampaigns
      [Phase1.campaignOperationAW env.campaignUuid env.startDate env.endDate b.id]) ∨
  (∃ b campaignId, (Phase1.createCampaignBudget gaSrv env.budgetUuid cid).2 = Except.ok b ∧
    (Phase1.createCampaign awSrv env.campaignUuid env.startDate env.endDate b.id).2 = Except.ok campaignId ∧
    e = Event.awMutateAdGroups [Phase1.adGroupOperationAW env.adGroupUuid campaignId]) ∨
  (∃ b campaignId adGroupId, (Phase1.createCampaignBudget gaSrv env.budgetUuid cid).2 = Except.ok b ∧
    (Phase1.createCampaign awSrv env.campaignUuid env.startDate env.endDate b.id).2 = Except.ok campaignId ∧
    (Phase1.createAdGroup awSrv env.adGroupUuid campaignId).2 = Except.ok adGroupId ∧
    e = Event.awMutateAdGroupAds ((List.range Phase1.NUMBER_OF_ADS).map fun i =>
      Phase1.adOperationAW (env.adUuid i) adGroupId)) ∨
  (∃ b campaignId adGroupId, (Phase1.createCampaignBudget gaSrv env.budgetUuid cid).2 = Except.ok b ∧
    (Phase1.createCampaign awSrv env.campaignUuid env.startDate env.endDate b.id).2 = Except.ok campaignId ∧
    (Phase1.createAdGroup awSrv env.adGroupUuid campaignId).2 = Except.ok adGroupId ∧
    e = Event.awMutateAdGroupCriteria (Phase1.KEYWORDS_TO_ADD.map fun keyword =>
      Phase1.keywordOperationAW adGroupId keyword)) ∨
  (∃ q n, e = Event.searchGA cid q n)

/-- Every remote call of an ApiOnly run is either one of the five creation
calls — each carrying exactly the request built from the previous step's
returned entity — or a read-only search. -/
theorem apiOnly_mainRun_events (srv : GAServer) (env : Env) (cid : String) :
    ∀ e ∈ (ApiOnly.mainRun srv env cid).1,
      apiOnlyEventFromPreviousStep srv env cid e := by
  intro e he
  unfold apiOnlyEventFromPreviousStep
  unfold ApiOnly.mainRun at he
  cases h1 : ApiOnly.createCampaignBudget srv env.budgetUuid cid with
  | mk t1 r1 =>
  rw [h1] at he
  cases r1 with
  | error e1 =>
    dsimp only at he
    have he1 : e ∈ (ApiOnly.createCampaignBudget srv env.budgetUuid cid).1 := by
      rw [h1]; exact he
    rcases apiOnly_createCampaignBudget_events srv env.budgetUuid cid e he1 with h | ⟨q, n, h⟩
    · exact Or.inl h
    · exact Or.inr (Or.inr (Or.inr (Or.inr (Or.inr ⟨q, n, h⟩))))
  | ok budget =>
    dsimp only at he
    cases h2 : ApiOnly.createCampaign srv env.campaignUuid env.startDate env.endDate cid budget with
    | mk t2 r2 =>
    rw [h2] at he
    cases r2 with
    | error e2 =>
      dsimp only at he
      simp only [List.mem_append, or_assoc] at he
      rcases he with he | he
      · have he1 : e ∈ (ApiOnly.createCampaignBudget srv env.budgetUuid cid).1 := by
          rw [h1]; exact he
        rcases apiOnly_createCampaignBudget_events srv env.budgetUuid cid e he1 with h | ⟨q, n, h⟩
        · exact Or.inl h
        · exact Or.inr (Or.inr (Or.inr (Or.inr (Or.inr ⟨q, n, h⟩))))
      · have he2 : e ∈ (ApiOnly.createCampaign srv env.campaignUuid env.startDate env.endDate cid budget).1 := by
          rw [h2]; exact he
        rcases apiOnly_createCampaign_events srv env.campaignUuid env.startDate env.endDate cid budget e he2 with h | ⟨q, n, h⟩
        · exact Or.inr (Or.inl ⟨budget, rfl, h⟩)
        · exact Or.inr (Or.inr (Or.inr (Or.inr (Or.inr ⟨q, n, h⟩))))
    | ok campaign =>
      dsimp only at he
      cases h3 : ApiOnly.createAdGroup srv env.adGroupUuid cid campaign with
      | mk t3 r3 =>
      rw [h3] at he
      cases r3 with
      | error e3 =>
        dsimp only at he
        simp only [List.mem_append, or_assoc] at he
        rcases he with he | he | he
        · have he1 : e ∈ (ApiOnly.createCampaignBudget srv env.budgetUuid cid).1 := by
            rw [h1]; exact he
          rcases apiOnly_createCampaignBudget_events srv env.budgetUuid cid e he1 with h | ⟨q, n, h⟩
          · exact Or.inl h
          · exact Or.inr (Or.inr (Or.inr (Or.inr (Or.inr ⟨q, n, h⟩))))
        · have he2 : e ∈ (ApiOnly.createCampaign srv env.campaignUuid env.startDate env.endDate cid budget).1 := by
            rw [h2]; exact he
          rcases apiOnly_createCampaign_events srv env.campaignUuid env.startDate env.endDate cid budget e he2 with h | ⟨q, n, h⟩
          · exact Or.inr (Or.inl ⟨budget, rfl, h⟩)
          · exact Or.inr (Or.inr (Or.inr (Or.inr (Or.inr ⟨q, n, h⟩))))
        · have he3 : e ∈ (ApiOnly.createAdGroup srv env.adGroupUuid cid campaign).1 := by
            rw [h3]; exact he
          rcases apiOnly_createAdGroup_events srv env.adGroupUuid cid campaign e he3 with h | ⟨q, n, h⟩
          · exact Or.inr (Or.inr (Or.inl ⟨budget, campaign, rfl, by rw [h2], h⟩))
          · exact Or.inr (Or.inr (Or.inr (Or.inr (Or.inr ⟨q, n, h⟩))))
      | ok adGroup =>
        dsimp only at he
        cases h4 : ApiOnly.createTextAds srv env.adUuid cid adGroup with
        | mk t4 r4 =>
        rw [h4] at he
        cases r4 with
        | error e4 =>
          dsimp only at he
          simp only [List.mem_append, or_assoc] at he
          rcases he with he | he | he | he
          · have he1 : e ∈ (ApiOnly.createCampaignBudget srv env.budgetUuid cid).1 := by
              rw [h1]; exact he
            rcases apiOnly_createCampaignBudget_events srv env.budgetUuid cid e he1 with h | ⟨q, n, h⟩
            · exact Or.inl h
            · exact Or.inr (Or.inr (Or.inr (Or.inr (Or.inr ⟨q, n, h⟩))))
          · have he2 : e ∈ (ApiOnly.createCampaign srv env.campaignUuid env.startDate env.endDate cid budget).1 := by
              rw [h2]; exact he
            rcases apiOnly_createCampaign_events srv env.campaignUuid env.startDate env.endDate cid budget e he2 with h | ⟨q, n, h⟩
            · exact Or.inr (Or.inl ⟨budget, rfl, h⟩)
            · exact Or.inr (Or.inr (Or.inr (Or.inr (Or.inr ⟨q, n, h⟩))))
          · have he3 : e ∈ (ApiOnly.createAdGroup srv env.adGroupUuid cid campaign).1 := by
              rw [h3]; exact he
            rcases apiOnly_createAdGroup_events srv env.adGroupUuid cid campaign e he3 with h | ⟨q, n, h⟩
            · exact Or.inr (Or.inr (Or.inl ⟨budget, campaign, rfl, by rw [h2], h⟩))
            · exact Or.inr (Or.inr (Or.inr (Or.inr (Or.inr ⟨q, n, h⟩))))
          · have he4 : e ∈ (ApiOnly.createTextAds srv env.adUuid cid adGroup).1 := by
              rw [h4]; exact he
            rcases apiOnly_createTextAds_events srv env.adUuid cid adGroup e he4 with h | ⟨q, n, h⟩
            · exact Or.inr (Or.inr (Or.inr (Or.inl
                ⟨budget, campaign, adGroup, rfl, by rw [h2], by rw [h3], h⟩)))
            · exact Or.inr (Or.inr (Or.inr (Or.inr (Or.inr ⟨q, n, h⟩))))
        | ok u4 =>
          dsimp only at he
          cases h5 : ApiOnly.createKeywords srv cid adGroup ApiOnly.KEYWORDS_TO_ADD with
          | mk t5 r5 =>
          rw [h5] at he
          dsimp only at he
          simp only [List.mem_append, or_assoc] at he
          rcases he with he | he | he | he | he
          · have he1 : e ∈ (ApiOnly.createCampaignBudget srv env.budgetUuid cid).1 := by
              rw [h1]; exact he
            rcases apiOnly_createCampaignBudget_events srv env.budgetUuid cid e he1 with h | ⟨q, n, h⟩
            · exact Or.inl h
            · exact Or.inr (Or.inr (Or.inr (Or.inr (Or.inr ⟨q, n, h⟩))))
          · have he2 : e ∈ (ApiOnly.createCampaign srv env.campaignUuid env.startDate env.endDate cid budget).1 := by
              rw [h2]; exact he
            rcases apiOnly_createCampaign_events srv env.campaignUuid env.startDate env.endDate cid budget e he2 with h | ⟨q, n, h⟩
            · exact Or.inr (Or.inl ⟨budget, rfl, h⟩)
            · exact Or.inr (Or.inr (Or.inr (Or.inr (Or.inr ⟨q, n, h⟩))))
          · have he3 : e ∈ (ApiOnly.createAdGroup srv env.adGroupUuid cid campaign).1 := by
              rw [h3]; exact he
            rcases apiOnly_createAdGroup_events srv env.adGroupUuid cid campaign e he3 with h | ⟨q, n, h⟩
            · exact Or.inr (Or.inr (Or.inl ⟨budget, campaign, rfl, by rw [h2], h⟩))
            · exact Or.inr (Or.inr (Or.inr (Or.inr (Or.inr ⟨q, n, h⟩))))
          · have he4 : e ∈ (ApiOnly.createTextAds srv env.adUuid cid adGroup).1 := by
              rw [h4]; exact he
            rcases apiOnly_createTextAds_events srv env.adUuid cid adGroup e he4 with h | ⟨q, n, h⟩
            · exact Or.inr (Or.inr (Or.inr (Or.inl
                ⟨budget, campaign, adGroup, rfl, by rw [h2], by rw [h3], h⟩)))
            · exact Or.inr (Or.inr (Or.inr (Or.inr (Or.inr ⟨q, n, h⟩))))
          · have he5 : e ∈ (ApiOnly.createKeywords srv cid adGroup ApiOnly.KEYWORDS_TO_ADD).1 := by
              rw [h5]; exact he
            rcases apiOnly_createKeywords_events srv cid adGroup ApiOnly.KEYWORDS_TO_ADD e he5 with h | ⟨q, n, h⟩
            · exact Or.inr (Or.inr (Or.inr (Or.inr (Or.inl
                ⟨budget, campaign, adGroup, rfl, by rw [h2], by rw [h3], h⟩))))
            · exact Or.inr (Or.inr (Or.inr (Or.inr (Or.inr ⟨q, n, h⟩))))

/-- Every remote call of a Phase1 run is either one of the five creation
calls — each carrying exactly the request built from the previous step's
returned identifier — or a read-only search. -/
theorem phase1_mainRun_events (gaSrv : GAServer) (awSrv : AWServer) (env : Env)
    (cid : String) :
    ∀ e ∈ (Phase1.mainRun gaSrv awSrv env cid).1,
      phase1EventFromPreviousStep gaSrv awSrv env cid e := by
  intro e he
  unfold phase1EventFromPreviousStep
  unfold Phase1.mainRun at he
  cases h1 : Phase1.createCampaignBudget gaSrv env.budgetUuid cid with
  | mk t1 r1 =>
  rw [h1] at he
  cases r1 with
  | error e1 =>
    dsimp only at he
    have he1 : e ∈ (Phase1.createCampaignBudget gaSrv env.budgetUuid cid).1 := by
      rw [h1]; exact he
    rcases phase1_createCampaignBudget_events gaSrv env.budgetUuid cid e he1 with h | ⟨q, n, h⟩
    · exact Or.inl h
    · exact Or.inr (Or.inr (Or.inr (Or.inr (Or.inr ⟨q, n, h⟩))))
  | ok budget =>
    dsimp only at he
    cases h2 : Phase1.createCampaign awSrv env.campaignUuid env.startDate env.endDate budget.id with
    | mk t2 r2 =>
    rw [h2] at he
    cases r2 with
    | error e2 =>
      dsimp only at he
      simp only [List.mem_append, or_assoc] at he
      rcases he with he | he
      · have he1 : e ∈ (Phase1.createCampaignBudget gaSrv env.budgetUuid cid).1 := by
          rw [h1]; exact he
        rcases phase1_createCampaignBudget_events gaSrv env.budgetUuid cid e he1 with h | ⟨q, n, h⟩
        · exact Or.inl h
        · exact Or.inr (Or.inr (Or.inr (Or.inr (Or.inr ⟨q, n, h⟩))))
      · have he2 : e ∈ (Phase1.createCampaign awSrv env.campaignUuid env.startDate env.endDate budget.id).1 := by
          rw [h2]; exact he
        rw [phase1_createCampaign_trace] at he2
        simp at he2
        exact Or.inr (Or.inl ⟨budget, rfl, he2⟩)
    | ok campaignId =>
      dsimp only at he
      cases h3 : Phase1.createAdGroup awSrv env.adGroupUuid campaignId with
      | mk t3 r3 =>
      rw [h3] at he
      cases r3 with
      | error e3 =>
        dsimp only at he
        simp only [List.mem_append, or_assoc] at he
        rcases he with he | he | he
        · have he1 : e ∈ (Phase1.createCampaignBudget gaSrv env.budgetUuid cid).1 := by
            rw [h1]; exact he
          rcases phase1_createCampaignBudget_events gaSrv env.budgetUuid cid e he1 with h | ⟨q, n, h⟩
          · exact Or.inl h
          · exact Or.inr (Or.inr (Or.inr (Or.inr (Or.inr ⟨q, n, h⟩))))
        · have he2 : e ∈ (Phase1.createCampaign awSrv env.campaignUuid env.startDate env.endDate budget.id).1 := by
            rw [h2]; exact he
          rw [phase1_createCampaign_trace] at he2
          simp at he2
          exact Or.inr (Or.inl ⟨budget, rfl, he2⟩)
        · have he3 : e ∈ (Phase1.createAdGroup awSrv env.adGroupUuid campaignId).1 := by
            rw [h3]; exact he
          rw [phase1_createAdGroup_trace] at he3
          simp at he3
          exact Or.inr (Or.inr (Or.inl ⟨budget, campaignId, rfl, by rw [h2], he3⟩))
      | ok adGroupId =>
        dsimp only at he
        cases h4 : Phase1.createTextAds awSrv env.adUuid adGroupId with
        | mk t4 r4 =>
        rw [h4] at he
        cases r4 with
        | error e4 =>
          dsimp only at he
          simp only [List.mem_append, or_assoc] at he
          rcases he with he | he | he | he
          · have he1 : e ∈ (Phase1.createCampaignBudget gaSrv env.budgetUuid cid).1 := by
              rw [h1]; exact he
            rcases phase1_createCampaignBudget_events gaSrv env.budgetUuid cid e he1 with h | ⟨q, n, h⟩
            · exact Or.inl h
            · exact Or.inr (Or.inr (Or.inr (Or.inr (Or.inr ⟨q, n, h⟩))))
          · have he2 : e ∈ (Phase1.createCampaign awSrv env.campaignUuid env.startDate env.endDate budget.id).1 := by
              rw [h2]; exact he
            rw [phase1_createCampaign_trace] at he2
            simp at he2
            exact Or.inr (Or.inl ⟨budget, rfl, he2⟩)
          · have he3 : e ∈ (Phase1.createAdGroup awSrv env.adGroupUuid campaignId).1 := by
              rw [h3]; exact he
            rw [phase1_createAdGroup_trace] at he3
            simp at he3
            exact Or.inr (Or.inr (Or.inl ⟨budget, campaignId, rfl, by rw [h2], he3⟩))
          · have he4 : e ∈ (Phase1.createTextAds awSrv env.adUuid adGroupId).1 := by
              rw [h4]; exact he
            rw [phase1_createTextAds_trace] at he4
            simp at he4
            exact Or.inr (Or.inr (Or.inr (Or.inl
              ⟨budget, campaignId, adGroupId, rfl, by rw [h2], by rw [h3], he4⟩)))
        | ok u4 =>
          dsimp only at he
          cases h5 : Phase1.createKeywords awSrv adGroupId Phase1.KEYWORDS_TO_ADD with
          | mk t5 r5 =>
          rw [h5] at he
          dsimp only at he
          simp only [List.mem_append, or_assoc] at he
          rcases he with he | he | he | he | he
          · have he1 : e ∈ (Phase1.createCampaignBudget gaSrv env.budgetUuid cid).1 := by
              rw [h1]; exact he
            rcases phase1_createCampaignBudget_events gaSrv env.budgetUuid cid e he1 with h | ⟨q, n, h⟩
            · exact Or.inl h
            · exact Or.inr (Or.inr (Or.inr (Or.inr (Or.inr ⟨q, n, h⟩))))
          · have he2 : e ∈ (Phase1.createCampaign awSrv env.campaignUuid env.startDate env.endDate budget.id).1 := by
              rw [h2]; exact he
            rw [phase1_createCampaign_trace] at he2
            simp at he2
            exact Or.inr (Or.inl ⟨budget, rfl, he2⟩)
          · have he3 : e ∈ (Phase1.createAdGroup awSrv env.adGroupUuid campaignId).1 := by
              rw [h3]; exact he
            rw [phase1_createAdGroup_trace] at he3
            simp at he3
            exact Or.inr (Or.inr (Or.inl ⟨budget, campaignId, rfl, by rw [h2], he3⟩))
          · have he4 : e ∈ (Phase1.createTextAds awSrv env.adUuid adGroupId).1 := by
              rw [h4]; exact he
            rw [phase1_createTextAds_trace] at he4
            simp at he4
            exact Or.inr (Or.inr (Or.inr (Or.inl
              ⟨budget, campaignId, adGroupId, rfl, by rw [h2], by rw [h3], he4⟩)))
          · have he5 : e ∈ (Phase1.createKeywords awSrv adGroupId Phase1.KEYWORDS_TO_ADD).1 := by
              rw [h5]; exact he
            rw [phase1_createKeywords_trace] at he5
            simp at he5
            exact Or.inr (Or.inr (Or.inr (Or.inr (Or.inl
              ⟨budget, campaignId, adGroupId, rfl, by rw [h2], by rw [h3], he5⟩))))

/-- The creation calls of an ApiOnly run form, in order, a prefix of
Budget, Campaign, AdGroup, TextAds, Keywords; a successful run makes all
five. -/
theorem apiOnly_mainRun_kinds (srv : GAServer) (env : Env) (cid : String) :
    ∃ n, n ≤ 5 ∧
      ((ApiOnly.mainRun srv env cid).1).filterMap createKind = List.take n [0, 1, 2, 3, 4] ∧
      ((ApiOnly.mainRun srv env cid).2 = Except.ok () →
        ((ApiOnly.mainRun srv env cid).1).filterMap createKind = [0, 1, 2, 3, 4]) := by
  unfold ApiOnly.mainRun
  cases h1 : ApiOnly.createCampaignBudget srv env.budgetUuid cid with
  | mk t1 r1 =>
  have k1 : t1.filterMap createKind = [0] := by
    have := apiOnly_createCampaignBudget_kinds srv env.budgetUuid cid
    rw [h1] at this; exact this
  cases r1 with
  | error e1 =>
    dsimp only
    refine ⟨1, by omega, ?_, by intro hcon; simp at hcon⟩
    rw [k1]
    rfl
  | ok budget =>
    dsimp only
    cases h2 : ApiOnly.createCampaign srv env.campaignUuid env.startDate env.endDate cid budget with
    | mk t2 r2 =>
    have k2 : t2.filterMap createKind = [1] := by
      have := apiOnly_createCampaign_kinds srv env.campaignUuid env.startDate env.endDate cid budget
      rw [h2] at this; exact this
    cases r2 with
    | error e2 =>
      dsimp only
      refine ⟨2, by omega, ?_, by intro hcon; simp at hcon⟩
      rw [List.filterMap_append, k1, k2]
      rfl
    | ok campaign =>
      dsimp only
      cases h3 : ApiOnly.createAdGroup srv env.adGroupUuid cid campaign with
      | mk t3 r3 =>
      have k3 : t3.filterMap createKind = [2] := by
        have := apiOnly_createAdGroup_kinds srv env.adGroupUuid cid campaign
        rw [h3] at this; exact this
      cases r3 with
      | error e3 =>
        dsimp only
        refine ⟨3, by omega, ?_, by intro hcon; simp at hcon⟩
        rw [List.filterMap_append, List.filterMap_append, k1, k2, k3]
        rfl
      | ok adGroup =>
        dsimp only
        cases h4 : ApiOnly.createTextAds srv env.adUuid cid adGroup with
        | mk t4 r4 =>
        have k4 : t4.filterMap createKind = [3] := by
          have := apiOnly_createTextAds_kinds srv env.adUuid cid adGroup
          rw [h4] at this; exact this
        cases r4 with
        | error e4 =>
          dsimp only
          refine ⟨4, by omega, ?_, by intro hcon; simp at hcon⟩
          rw [List.filterMap_append, List.filterMap_append, List.filterMap_append,
            k1, k2, k3, k4]
          rfl
        | ok u4 =>
          dsimp only
          cases h5 : ApiOnly.createKeywords srv cid adGroup ApiOnly.KEYWORDS_TO_ADD with
          | mk t5 r5 =>
          dsimp only
          have k5 : t5.filterMap createKind = [4] := by
            have := apiOnly_createKeywords_kinds srv cid adGroup ApiOnly.KEYWORDS_TO_ADD
            rw [h5] at this; exact this
          have hfull : ((t1 ++ t2 ++ t3 ++ t4 ++ t5).filterMap createKind) = [0, 1, 2, 3, 4] := by
            rw [List.filterMap_append, List.filterMap_append, List.filterMap_append,
              List.filterMap_append, k1, k2, k3, k4, k5]
            rfl
          exact ⟨5, by omega, hfull, fun _ => hfull⟩

/-- The creation calls of a Phase1 run form, in order, a prefix of Budget,
Campaign, AdGroup, TextAds, Keywords; a successful run makes all five. -/
theorem phase1_mainRun_kinds (gaSrv : GAServer) (awSrv : AWServer) (env : Env)
    (cid : String) :
    ∃ n, n ≤ 5 ∧
      ((Phase1.mainRun gaSrv awSrv env cid).1).filterMap createKind = List.take n [0, 1, 2, 3, 4] ∧
      ((Phase1.mainRun gaSrv awSrv env cid).2 = Except.ok () →
        ((Phase1.mainRun gaSrv awSrv env cid).1).filterMap createKind = [0, 1, 2, 3, 4]) := by
  unfold Phase1.mainRun
  cases h1 : Phase1.createCampaignBudget gaSrv env.budgetUuid cid with
  | mk t1 r1 =>
  have k1 : t1.filterMap createKind = [0] := by
    have := phase1_createCampaignBudget_kinds gaSrv env.budgetUuid cid
    rw [h1] at this; exact this
  cases r1 with
  | error e1 =>
    dsimp only
    refine ⟨1, by omega, ?_, by intro hcon; simp at hcon⟩
    rw [k1]
    rfl
  | ok budget =>
    dsimp only
    cases h2 : Phase1.createCampaign awSrv env.campaignUuid env.startDate env.endDate budget.id with
    | mk t2 r2 =>
    have k2 : t2.filterMap createKind = [1] := by
      have := phase1_createCampaign_kinds awSrv env.campaignUuid env.startDate env.endDate budget.id
      rw [h2] at this; exact this
    cases r2 with
    | error e2 =>
      dsimp only
      refine ⟨2, by omega, ?_, by intro hcon; simp at hcon⟩
      rw [List.filterMap_append, k1, k2]
      rfl
    | ok campaignId =>
      dsimp only
      cases h3 : Phase1.createAdGroup awSrv env.adGroupUuid campaignId with
      | mk t3 r3 =>
      have k3 : t3.filterMap createKind = [2] := by
        have := phase1_createAdGroup_kinds awSrv env.adGroupUuid campaignId
        rw [h3] at this; exact this
      cases r3 with
      | error e3 =>
        dsimp only
        refine ⟨3, by omega, ?_, by intro hcon; simp at hcon⟩
        rw [List.filterMap_append, List.filterMap_append, k1, k2, k3]
        rfl
      | ok adGroupId =>
        dsimp only
        cases h4 : Phase1.createTextAds awSrv env.adUuid adGroupId with
        | mk t4 r4 =>
        have k4 : t4.filterMap createKind = [3] := by
          have := phase1_createTextAds_kinds awSrv env.adUuid adGroupId
          rw [h4] at this; exact this
        cases r4 with
        | error e4 =>
          dsimp only
          refine ⟨4, by omega, ?_, by intro hcon; simp at hcon⟩
          rw [List.filterMap_append, List.filterMap_append, List.filterMap_append,
            k1, k2, k3, k4]
          rfl
        | ok u4 =>
          dsimp only
          cases h5 : Phase1.createKeywords awSrv adGroupId Phase1.KEYWORDS_TO_ADD with
          | mk t5 r5 =>
          dsimp only
          have k5 : t5.filterMap createKind = [4] := by
            have := phase1_createKeywords_kinds awSrv adGroupId Phase1.KEYWORDS_TO_ADD
            rw [h5] at this; exact this
          have hfull : ((t1 ++ t2 ++ t3 ++ t4 ++ t5).filterMap createKind) = [0, 1, 2, 3, 4] := by
            rw [List.filterMap_append, List.filterMap_append, List.filterMap_append,
              List.filterMap_append, k1, k2, k3, k4, k5]
            rfl
          exact ⟨5, by omega, hfull, fun _ => hfull⟩

/- ### Ops carried by the single batch mutate of each batch step -/

theorem apiOnly_createCampaignBudget_budgetOps (srv : GAServer) (u cid : String) :
    ((ApiOnly.createCampaignBudget srv u cid).1).filterMap budgetOpsOf =
      [[ApiOnly.budgetOperation u]] := by
  unfold ApiOnly.createCampaignBudget
  dsimp only
  split
  · simp [budgetOpsOf]
  · split <;> simp [ApiOnly.getCampaignBudget, budgetOpsOf]

theorem phase1_createCampaignBudget_budgetOps (srv : GAServer) (u cid : String) :
    ((Phase1.createCampaignBudget srv u cid).1).filterMap budgetOpsOf =
      [[Phase1.budgetOperation u]] := by
  unfold Phase1.createCampaignBudget
  dsimp only
  split
  · simp [budgetOpsOf]
  · split <;> simp [Phase1.getCampaignBudget, budgetOpsOf]

theorem apiOnly_createTextAds_adOps (srv : GAServer) (uuidf : Nat → String)
    (cid : String) (g : AdGroup) :
    ((ApiOnly.createTextAds srv uuidf cid g).1).filterMap adGroupAdOpsOf =
      [(List.range ApiOnly.NUMBER_OF_ADS).map fun i =>
        ApiOnly.adGroupAdOperation (uuidf i) g.resource_name] := by
  unfold ApiOnly.createTextAds
  dsimp only
  split
  · simp [adGroupAdOpsOf]
  · split <;> simp [ApiOnly.getAds, adGroupAdOpsOf]

theorem phase1_createTextAds_adOps (srv : AWServer) (uuidf : Nat → String)
    (adGroupId : Nat) :
    ((Phase1.createTextAds srv uuidf adGroupId).1).filterMap awAdOpsOf =
      [(List.range Phase1.NUMBER_OF_ADS).map fun i =>
        Phase1.adOperationAW (uuidf i) adGroupId] :=
  rfl

theorem apiOnly_createKeywords_kwOps (srv : GAServer) (cid : String)
    (g : AdGroup) (kws : List String) :
    ((ApiOnly.createKeywords srv cid g kws).1).filterMap criterionOpsOf =
      [kws.map fun keyword => ApiOnly.keywordOperation g.resource_name keyword] := by
  unfold ApiOnly.createKeywords
  dsimp only
  split
  · simp [criterionOpsOf]
  · split <;> simp [ApiOnly.getKeywords, criterionOpsOf]

theorem phase1_createKeywords_kwOps (srv : AWServer) (adGroupId : Nat)
    (keywordsToAdd : List String) :
    ((Phase1.createKeywords srv adGroupId keywordsToAdd).1).filterMap awKwOpsOf =
      [Phase1.KEYWORDS_TO_ADD.map fun keyword =>
        Phase1.keywordOperationAW adGroupId keyword] :=
  rfl

/- ### Concrete servers and environments used to exercise the theorems -/

/-- A fixed Google Ads row every search of `okGA` returns. -/
def sampleRow : GoogleAdsRow :=
  { campaign_budget := { id := 10, name := "B", resource_name := "customers/7/campaignBudgets/1" }
    campaign := { id := 11, name := "C", resource_name := "customers/7/campaigns/2" }
    ad_group := { id := 12, name := "G", resource_name := "customers/7/adGroups/3" }
    ad_group_ad :=
    { ad_id := 13, status := "PAUSED", headline_part1 := "H1", headline_part2 := "H2"
      resource_name := "customers/7/adGroupAds/4" }
    ad_group_criterion :=
    { criterion_id := 14, keyword_text := "mars cruise", keyword_match_type := "EXACT"
      resource_name := "customers/7/adGroupCriteria/5" } }

/-- A Google Ads server on which every call succeeds. -/
def okGA : GAServer :=
  { mutate_campaign_budgets := fun _ _ =>
      Except.ok { results := [{ resource_name := "customers/7/campaignBudgets/1" }] }
    mutate_campaigns := fun _ _ =>
      Except.ok { results := [{ resource_name := "customers/7/campaigns/2" }] }
    mutate_ad_groups := fun _ _ =>
      Except.ok { results := [{ resource_name := "customers/7/adGroups/3" }] }
    mutate_ad_group_ads := fun _ _ =>
      Except.ok { results := [{ resource_name := "ads/0" }, { resource_name := "ads/1" },
        { resource_name := "ads/2" }, { resource_name := "ads/3" }, { resource_name := "ads/4" }] }
    mutate_ad_group_criteria := fun _ _ =>
      Except.ok { results := [{ resource_name := "crit/0" }, { resource_name := "crit/1" }] }
    search := fun _ _ _ => Except.ok [sampleRow] }

/-- An AdWords server on which every call succeeds. -/
def okAW : AWServer :=
  { campaignMutate := fun _ => Except.ok [{ id := 21, name := "C" }]
    adGroupMutate := fun _ => Except.ok [{ id := 22, name := "G" }]
    adGroupAdMutate := fun _ => Except.ok [{ id := 23, name := "A" }]
    adGroupCriterionMutate := fun _ => Except.ok [{ id := 24, name := "K" }] }

/-- `okGA` with a search service that finds nothing. -/
def emptyGA : GAServer :=
  { okGA with search := fun _ _ _ => Except.ok [] }

/-- `okGA` with a failing budget mutate. -/
def gaFailBudget : GAServer :=
  { okGA with mutate_campaign_budgets := fun _ _ => Except.error (Err.remote "boom") }

/-- `okGA` with a failing campaign mutate. -/
def gaFailCampaigns : GAServer :=
  { okGA with mutate_campaigns := fun _ _ => Except.error (Err.remote "boom") }

/-- `okGA` with a failing ad-group mutate. -/
def gaFailAdGroups : GAServer :=
  { okGA with mutate_ad_groups := fun _ _ => Except.error (Err.remote "boom") }

/-- `okGA` with a failing ad mutate. -/
def gaFailAds : GAServer :=
  { okGA with mutate_ad_group_ads := fun _ _ => Except.error (Err.remote "boom") }

/-- `okGA` with a failing criterion mutate. -/
def gaFailCriteria : GAServer :=
  { okGA with mutate_ad_group_criteria := fun _ _ => Except.error (Err.remote "boom") }

/-- `okAW` with a failing campaign mutate. -/
def awFailCampaigns : AWServer :=
  { okAW with campaignMutate := fun _ => Except.error (Err.remote "boom") }

/-- `okAW` with a failing ad-group mutate. -/
def awFailAdGroups : AWServer :=
  { okAW with adGroupMutate := fun _ => Except.error (Err.remote "boom") }

/-- `okAW` with a failing ad mutate. -/
def awFailAds : AWServer :=
  { okAW with adGroupAdMutate := fun _ => Except.error (Err.remote "boom") }

/-- `okAW` with a failing criterion mutate. -/
def awFailCriteria : AWServer :=
  { okAW with adGroupCriterionMutate := fun _ => Except.error (Err.remote "boom") }

/-- A fixed environment: concrete uuid fragments and dates. -/
def envW : Env :=
  { budgetUuid := "bu", campaignUuid := "cu", adGroupUuid := "gu"
    adUuid := fun i => toString i, startDate := "20260101", endDate := "20261231" }

/- ### Claim theorems -/

/-- C1: for every run of either script, every creation request issued by a
pipeline step references the identifier returned by the immediately
preceding step: the campaign request carries the budget step's returned
resource name (ApiOnly) or numeric budget id (Phase1), the ad-group request
carries the campaign step's returned identifier, and every text-ad and
keyword operation carries the ad-group step's returned identifier.  Every
remote call of a run is either one of these fully pinned creation calls or
a read-only search, so no request references an identifier produced later
in the pipeline. -/
theorem pipeline_requests_reference_previous_step (gaSrv : GAServer)
    (awSrv : AWServer) (env : Env) (cid : String) :
    (∀ e ∈ (ApiOnly.mainRun gaSrv env cid).1,
      apiOnlyEventFromPreviousStep gaSrv env cid e) ∧
    (∀ e ∈ (Phase1.mainRun gaSrv awSrv env cid).1,
      phase1EventFromPreviousStep gaSrv awSrv env cid e) :=
  ⟨apiOnly_mainRun_events gaSrv env cid, phase1_mainRun_events gaSrv awSrv env cid⟩

/-- Exercises C1 on concrete servers: the budget mutate event of each run
satisfies the step-reference property. -/
theorem pipeline_requests_reference_previous_step_witness :
    apiOnlyEventFromPreviousStep okGA envW "c"
      (Event.mutateCampaignBudgets "c" [ApiOnly.budgetOperation "bu"]) ∧
    phase1EventFromPreviousStep okGA okAW envW "c"
      (Event.mutateCampaignBudgets "c" [Phase1.budgetOperation "bu"]) :=
  ⟨(pipeline_requests_reference_previous_step okGA okAW envW "c").1 _ (by decide),
   (pipeline_requests_reference_previous_step okGA okAW envW "c").2 _ (by decide)⟩

/-- C2: for every run of either script, the creation calls are issued in
exactly the order Budget (0), Campaign (1), AdGroup (2), TextAds (3),
Keywords (4) — the create calls of the trace form a prefix of that
sequence, each step at most once, and a run that finishes successfully
performs all five. -/
theorem create_calls_fixed_order (gaSrv : GAServer) (awSrv : AWServer)
    (env : Env) (cid : String) :
    (∃ n, n ≤ 5 ∧
      ((ApiOnly.mainRun gaSrv env cid).1).filterMap createKind = List.take n [0, 1, 2, 3, 4] ∧
      ((ApiOnly.mainRun gaSrv env cid).2 = Except.ok () →
        ((ApiOnly.mainRun gaSrv env cid).1).filterMap createKind = [0, 1, 2, 3, 4])) ∧
    (∃ n, n ≤ 5 ∧
      ((Phase1.mainRun gaSrv awSrv env cid).1).filterMap createKind = List.take n [0, 1, 2, 3, 4] ∧
      ((Phase1.mainRun gaSrv awSrv env cid).2 = Except.ok () →
        ((Phase1.mainRun gaSrv awSrv env cid).1).filterMap createKind = [0, 1, 2, 3, 4])) :=
  ⟨apiOnly_mainRun_kinds gaSrv env cid, phase1_mainRun_kinds gaSrv awSrv env cid⟩

/-- Exercises C2 on servers where every call succeeds: both runs issue all
five creation calls in pipeline order. -/
theorem create_calls_fixed_order_witness :
    ((ApiOnly.mainRun okGA envW "c").1).filterMap createKind = [0, 1, 2, 3, 4] ∧
    ((Phase1.mainRun okGA okAW envW "c").1).filterMap createKind = [0, 1, 2, 3, 4] := by
  refine ⟨?_, ?_⟩
  · obtain ⟨n, _, _, himp⟩ := (create_calls_fixed_order okGA okAW envW "c").1
    exact himp rfl
  · obtain ⟨n, _, _, himp⟩ := (create_calls_fixed_order okGA okAW envW "c").2
    exact himp rfl

/-- C4: in either script, `createTextAds` submits exactly
`NUMBER_OF_ADS = 5` ad-creation operations, all carried by the single batch
mutate call of the step (the trace holds exactly one ad mutate event). -/
theorem createTextAds_single_batch_of_five (gaSrv : GAServer) (awSrv : AWServer)
    (uuidf : Nat → String) (cid : String) (g : AdGroup) (adGroupId : Nat) :
    (∃ ops, ((ApiOnly.createTextAds gaSrv uuidf cid g).1).filterMap adGroupAdOpsOf = [ops] ∧
      ops.length = ApiOnly.NUMBER_OF_ADS) ∧
    (∃ ops, ((Phase1.createTextAds awSrv uuidf adGroupId).1).filterMap awAdOpsOf = [ops] ∧
      ops.length = Phase1.NUMBER_OF_ADS) ∧
    ApiOnly.NUMBER_OF_ADS = 5 ∧ Phase1.NUMBER_OF_ADS = 5 :=
  ⟨⟨_, apiOnly_createTextAds_adOps gaSrv uuidf cid g, by simp⟩,
   ⟨_, phase1_createTextAds_adOps awSrv uuidf adGroupId, by simp⟩, rfl, rfl⟩

/-- C6: in either script, the budget-creation request sets
`amount_micros = 500000`, and the single budget mutate of the step carries
exactly that request. -/
theorem budget_amount_micros_500000 (gaSrv gaSrv2 : GAServer)
    (u u2 cid cid2 : String) :
    ((ApiOnly.createCampaignBudget gaSrv u cid).1).filterMap budgetOpsOf =
      [[ApiOnly.budgetOperation u]] ∧
    (ApiOnly.budgetOperation u).create.amount_micros = 500000 ∧
    ((Phase1.createCampaignBudget gaSrv2 u2 cid2).1).filterMap budgetOpsOf =
      [[Phase1.budgetOperation u2]] ∧
    (Phase1.budgetOperation u2).create.amount_micros = 500000 :=
  ⟨apiOnly_createCampaignBudget_budgetOps gaSrv u cid, rfl,
   phase1_createCampaignBudget_budgetOps gaSrv2 u2 cid2, rfl⟩

/-- C7: every keyword operation built by `createKeywords` carries the
script's single configured match type — `EXACT` in the ApiOnly script and
`BROAD` in the Phase1 script, each one of the two keyword-matching modes —
so all keywords of a run share one match type. -/
theorem keyword_match_type_configured (gaSrv : GAServer) (awSrv : AWServer)
    (cid : String) (g : AdGroup) (adGroupId : Nat) (kws ks : List String) :
    (∃ ops, ((ApiOnly.createKeywords gaSrv cid g kws).1).filterMap criterionOpsOf = [ops] ∧
      ops.map (fun o => o.create.keyword_match_type) = List.replicate kws.length "EXACT") ∧
    (∃ ops, ((Phase1.createKeywords awSrv adGroupId ks).1).filterMap awKwOpsOf = [ops] ∧
      ops.map (fun o => o.operand.criterion.matchType) =
        List.replicate Phase1.KEYWORDS_TO_ADD.length "BROAD") ∧
    "EXACT" ∈ ["BROAD", "EXACT"] ∧ "BROAD" ∈ ["BROAD", "EXACT"] := by
  refine ⟨⟨_, apiOnly_createKeywords_kwOps gaSrv cid g kws, ?_⟩,
          ⟨_, phase1_createKeywords_kwOps awSrv adGroupId ks, ?_⟩, by simp, by simp⟩
  · rw [List.map_map]
    exact List.map_const' kws "EXACT"
  · simp [Phase1.KEYWORDS_TO_ADD, Phase1.keywordOperationAW, List.replicate]

/-- C9: Phase1 `createKeywords` never reads its `keywordsToAdd` parameter:
its behaviour is identical for any two argument lists, and the operations
it submits are always built from the module constant
`KEYWORDS_TO_ADD = ['mars cruise', 'space hotel']`. -/
theorem phase1_createKeywords_parameter_independent (srv : AWServer)
    (adGroupId : Nat) (k1 k2 : List String) :
    Phase1.createKeywords srv adGroupId k1 = Phase1.createKeywords srv adGroupId k2 ∧
    ((Phase1.createKeywords srv adGroupId k1).1).filterMap awKwOpsOf =
      [Phase1.KEYWORDS_TO_ADD.map fun keyword => Phase1.keywordOperationAW adGroupId keyword] ∧
    Phase1.KEYWORDS_TO_ADD = ["mars cruise", "space hotel"] :=
  ⟨rfl, rfl, rfl⟩

/-- C10: the read-back helpers return the entity of the first row of the
search response, and when the search returns no rows, indexing position 0
raises (`Err.indexError`) instead of returning an empty or sentinel
value. -/
theorem getters_first_row_or_index_error (srv : GAServer) (cid rn : String) :
    (srv.search cid (ApiOnly.budgetQuery rn) ApiOnly.PAGE_SIZE = Except.ok [] →
      (ApiOnly.getCampaignBudget srv cid rn).2 = Except.error Err.indexError) ∧
    (∀ row rest, srv.search cid (ApiOnly.budgetQuery rn) ApiOnly.PAGE_SIZE = Except.ok (row :: rest) →
      (ApiOnly.getCampaignBudget srv cid rn).2 = Except.ok row.campaign_budget) ∧
    (srv.search cid (ApiOnly.campaignQuery rn) ApiOnly.PAGE_SIZE = Except.ok [] →
      (ApiOnly.getCampaign srv cid rn).2 = Except.error Err.indexError) ∧
    (∀ row rest, srv.search cid (ApiOnly.campaignQuery rn) ApiOnly.PAGE_SIZE = Except.ok (row :: rest) →
      (ApiOnly.getCampaign srv cid rn).2 = Except.ok row.campaign) ∧
    (srv.search cid (ApiOnly.adGroupQuery rn) ApiOnly.PAGE_SIZE = Except.ok [] →
      (ApiOnly.getAdGroup srv cid rn).2 = Except.error Err.indexError) ∧
    (∀ row rest, srv.search cid (ApiOnly.adGroupQuery rn) ApiOnly.PAGE_SIZE = Except.ok (row :: rest) →
      (ApiOnly.getAdGroup srv cid rn).2 = Except.ok row.ad_group) ∧
    (srv.search cid (Phase1.budgetQuery rn) Phase1.PAGE_SIZE = Except.ok [] →
      (Phase1.getCampaignBudget srv cid rn).2 = Except.error Err.indexError) ∧
    (∀ row rest, srv.search cid (Phase1.budgetQuery rn) Phase1.PAGE_SIZE = Except.ok (row :: rest) →
      (Phase1.getCampaignBudget srv cid rn).2 = Except.ok row.campaign_budget) := by
  refine ⟨?_, ?_, ?_, ?_, ?_, ?_, ?_, ?_⟩
  · intro h; unfold ApiOnly.getCampaignBudget; dsimp only; rw [h]
  · intro row rest h; unfold ApiOnly.getCampaignBudget; dsimp only; rw [h]
  · intro h; unfold ApiOnly.getCampaign; dsimp only; rw [h]
  · intro row rest h; unfold ApiOnly.getCampaign; dsimp only; rw [h]
  · intro h; unfold ApiOnly.getAdGroup; dsimp only; rw [h]
  · intro row rest h; unfold ApiOnly.getAdGroup; dsimp only; rw [h]
  · intro h; unfold Phase1.getCampaignBudget; dsimp only; rw [h]
  · intro row rest h; unfold Phase1.getCampaignBudget; dsimp only; rw [h]

/-- Exercises C10: on a server whose searches find nothing each getter
raises `Err.indexError`; on one returning a row, the first row's entity is
returned. -/
theorem getters_first_row_or_index_error_witness :
    (ApiOnly.getCampaignBudget emptyGA "c" "r").2 = Except.error Err.indexError ∧
    (ApiOnly.getCampaign emptyGA "c" "r").2 = Except.error Err.indexError ∧
    (ApiOnly.getAdGroup emptyGA "c" "r").2 = Except.error Err.indexError ∧
    (Phase1.getCampaignBudget emptyGA "c" "r").2 = Except.error Err.indexError ∧
    (ApiOnly.getCampaignBudget okGA "c" "r").2 = Except.ok sampleRow.campaign_budget ∧
    (ApiOnly.getAdGroup okGA "c" "r").2 = Except.ok sampleRow.ad_group :=
  ⟨(getters_first_row_or_index_error emptyGA "c" "r").1 rfl,
   (getters_first_row_or_index_error emptyGA "c" "r").2.2.1 rfl,
   (getters_first_row_or_index_error emptyGA "c" "r").2.2.2.2.1 rfl,
   (getters_first_row_or_index_error emptyGA "c" "r").2.2.2.2.2.2.1 rfl,
   (getters_first_row_or_index_error okGA "c" "r").2.1 sampleRow [] rfl,
   (getters_first_row_or_index_error okGA "c" "r").2.2.2.2.2.1 sampleRow [] rfl⟩

/-- C3: if any pipeline step's remote call raises, the exception propagates
uncaught to the top level — the run's result is exactly that error, no
handler or retry intervenes — and no subsequent pipeline step is invoked:
the run's trace is exactly the calls made up to the failing step (and the
trace alphabet holds no delete call at all, so nothing already created is
removed). -/
theorem step_failure_aborts_pipeline (gaSrv : GAServer) (awSrv : AWServer)
    (env : Env) (cid : String) (err : Err) :
    (∀ t1, ApiOnly.createCampaignBudget gaSrv env.budgetUuid cid = (t1, Except.error err) →
      ApiOnly.mainRun gaSrv env cid = (t1, Except.error err)) ∧
    (∀ t1 b t2, ApiOnly.createCampaignBudget gaSrv env.budgetUuid cid = (t1, Except.ok b) →
      ApiOnly.createCampaign gaSrv env.campaignUuid env.startDate env.endDate cid b = (t2, Except.error err) →
      ApiOnly.mainRun gaSrv env cid = (t1 ++ t2, Except.error err)) ∧
    (∀ t1 b t2 c t3, ApiOnly.createCampaignBudget gaSrv env.budgetUuid cid = (t1, Except.ok b) →
      ApiOnly.createCampaign gaSrv env.campaignUuid env.startDate env.endDate cid b = (t2, Except.ok c) →
      ApiOnly.createAdGroup gaSrv env.adGroupUuid cid c = (t3, Except.error err) →
      ApiOnly.mainRun gaSrv env cid = (t1 ++ t2 ++ t3, Except.error err)) ∧
    (∀ t1 b t2 c t3 g t4, ApiOnly.createCampaignBudget gaSrv env.budgetUuid cid = (t1, Except.ok b) →
      ApiOnly.createCampaign gaSrv env.campaignUuid env.startDate env.endDate cid b = (t2, Except.ok c) →
      ApiOnly.createAdGroup gaSrv env.adGroupUuid cid c = (t3, Except.ok g) →
      ApiOnly.createTextAds gaSrv env.adUuid cid g = (t4, Except.error err) →
      ApiOnly.mainRun gaSrv env cid = (t1 ++ t2 ++ t3 ++ t4, Except.error err)) ∧
    (∀ t1 b t2 c t3 g t4 t5, ApiOnly.createCampaignBudget gaSrv env.budgetUuid cid = (t1, Except.ok b) →
      ApiOnly.createCampaign gaSrv env.campaignUuid env.startDate env.endDate cid b = (t2, Except.ok c) →
      ApiOnly.createAdGroup gaSrv env.adGroupUuid cid c = (t3, Except.ok g) →
      ApiOnly.createTextAds gaSrv env.adUuid cid g = (t4, Except.ok ()) →
      ApiOnly.createKeywords gaSrv cid g ApiOnly.KEYWORDS_TO_ADD = (t5, Except.error err) →
      ApiOnly.mainRun gaSrv env cid = (t1 ++ t2 ++ t3 ++ t4 ++ t5, Except.error err)) ∧
    (∀ t1, Phase1.createCampaignBudget gaSrv env.budgetUuid cid = (t1, Except.error err) →
      Phase1.mainRun gaSrv awSrv env cid = (t1, Except.error err)) ∧
    (∀ t1 b t2, Phase1.createCampaignBudget gaSrv env.budgetUuid cid = (t1, Except.ok b) →
      Phase1.createCampaign awSrv env.campaignUuid env.startDate env.endDate b.id = (t2, Except.error err) →
      Phase1.mainRun gaSrv awSrv env cid = (t1 ++ t2, Except.error err)) ∧
    (∀ t1 b t2 campaignId t3, Phase1.createCampaignBudget gaSrv env.budgetUuid cid = (t1, Except.ok b) →
      Phase1.createCampaign awSrv env.campaignUuid env.startDate env.endDate b.id = (t2, Except.ok campaignId) →
      Phase1.createAdGroup awSrv env.adGroupUuid campaignId = (t3, Except.error err) →
      Phase1.mainRun gaSrv awSrv env cid = (t1 ++ t2 ++ t3, Except.error err)) ∧
    (∀ t1 b t2 campaignId t3 adGroupId t4, Phase1.createCampaignBudget gaSrv env.budgetUuid cid = (t1, Except.ok b) →
      Phase1.createCampaign awSrv env.campaignUuid env.startDate env.endDate b.id = (t2, Except.ok campaignId) →
      Phase1.createAdGroup awSrv env.adGroupUuid campaignId = (t3, Except.ok adGroupId) →
      Phase1.createTextAds awSrv env.adUuid adGroupId = (t4, Except.error err) →
      Phase1.mainRun gaSrv awSrv env cid = (t1 ++ t2 ++ t3 ++ t4, Except.error err)) ∧
    (∀ t1 b t2 campaignId t3 adGroupId t4 t5, Phase1.createCampaignBudget gaSrv env.budgetUuid cid = (t1, Except.ok b) →
      Phase1.createCampaign awSrv env.campaignUuid env.startDate env.endDate b.id = (t2, Except.ok campaignId) →
      Phase1.createAdGroup awSrv env.adGroupUuid campaignId = (t3, Except.ok adGroupId) →
      Phase1.createTextAds awSrv env.adUuid adGroupId = (t4, Except.ok ()) →
      Phase1.createKeywords awSrv adGroupId Phase1.KEYWORDS_TO_ADD = (t5, Except.error err) →
      Phase1.mainRun gaSrv awSrv env cid = (t1 ++ t2 ++ t3 ++ t4 ++ t5, Except.error err)) := by
  refine ⟨?_, ?_, ?_, ?_, ?_, ?_, ?_, ?_, ?_, ?_⟩
  · intro t1 h1
    unfold ApiOnly.mainRun; rw [h1]
  · intro t1 b t2 h1 h2
    unfold ApiOnly.mainRun; rw [h1]; dsimp only; rw [h2]
  · intro t1 b t2 c t3 h1 h2 h3
    unfold ApiOnly.mainRun; rw [h1]; dsimp only; rw [h2]; dsimp only; rw [h3]
  · intro t1 b t2 c t3 g t4 h1 h2 h3 h4
    unfold ApiOnly.mainRun; rw [h1]; dsimp only; rw [h2]; dsimp only; rw [h3]
    dsimp only; rw [h4]
  · intro t1 b t2 c t3 g t4 t5 h1 h2 h3 h4 h5
    unfold ApiOnly.mainRun; rw [h1]; dsimp only; rw [h2]; dsimp only; rw [h3]
    dsimp only; rw [h4]; dsimp only; rw [h5]
  · intro t1 h1
    unfold Phase1.mainRun; rw [h1]
  · intro t1 b t2 h1 h2
    unfold Phase1.mainRun; rw [h1]; dsimp only; rw [h2]
  · intro t1 b t2 campaignId t3 h1 h2 h3
    unfold Phase1.mainRun; rw [h1]; dsimp only; rw [h2]; dsimp only; rw [h3]
  · intro t1 b t2 campaignId t3 adGroupId t4 h1 h2 h3 h4
    unfold Phase1.mainRun; rw [h1]; dsimp only; rw [h2]; dsimp only; rw [h3]
    dsimp only; rw [h4]
  · intro t1 b t2 campaignId t3 adGroupId t4 t5 h1 h2 h3 h4 h5
    unfold Phase1.mainRun; rw [h1]; dsimp only; rw [h2]; dsimp only; rw [h3]
    dsimp only; rw [h4]; dsimp only; rw [h5]

/-- Exercises C3 at every failure point: on servers failing at each of the
five steps, the run's result is the raised error and its trace stops at the
failing step. -/
theorem step_failure_aborts_pipeline_witness :
    ApiOnly.mainRun gaFailBudget envW "c" =
      ((ApiOnly.createCampaignBudget gaFailBudget "bu" "c").1,
       Except.error (Err.remote "boom")) ∧
    ApiOnly.mainRun gaFailCampaigns envW "c" =
      ((ApiOnly.createCampaignBudget gaFailCampaigns "bu" "c").1 ++
       (ApiOnly.createCampaign gaFailCampaigns "cu" "20260101" "20261231" "c" sampleRow.campaign_budget).1,
       Except.error (Err.remote "boom")) ∧
    ApiOnly.mainRun gaFailAdGroups envW "c" =
      ((ApiOnly.createCampaignBudget gaFailAdGroups "bu" "c").1 ++
       (ApiOnly.createCampaign gaFailAdGroups "cu" "20260101" "20261231" "c" sampleRow.campaign_budget).1 ++
       (ApiOnly.createAdGroup gaFailAdGroups "gu" "c" sampleRow.campaign).1,
       Except.error (Err.remote "boom")) ∧
    ApiOnly.mainRun gaFailAds envW "c" =
      ((ApiOnly.createCampaignBudget gaFailAds "bu" "c").1 ++
       (ApiOnly.createCampaign gaFailAds "cu" "20260101" "20261231" "c" sampleRow.campaign_budget).1 ++
       (ApiOnly.createAdGroup gaFailAds "gu" "c" sampleRow.campaign).1 ++
       (ApiOnly.createTextAds gaFailAds (fun i => toString i) "c" sampleRow.ad_group).1,
       Except.error (Err.remote "boom")) ∧
    ApiOnly.mainRun gaFailCriteria envW "c" =
      ((ApiOnly.createCampaignBudget gaFailCriteria "bu" "c").1 ++
       (ApiOnly.createCampaign gaFailCriteria "cu" "20260101" "20261231" "c" sampleRow.campaign_budget).1 ++
       (ApiOnly.createAdGroup gaFailCriteria "gu" "c" sampleRow.campaign).1 ++
       (ApiOnly.createTextAds gaFailCriteria (fun i => toString i) "c" sampleRow.ad_group).1 ++
       (ApiOnly.createKeywords gaFailCriteria "c" sampleRow.ad_group ApiOnly.KEYWORDS_TO_ADD).1,
       Except.error (Err.remote "boom")) ∧
    Phase1.mainRun gaFailBudget okAW envW "c" =
      ((Phase1.createCampaignBudget gaFailBudget "bu" "c").1,
       Except.error (Err.remote "boom")) ∧
    Phase1.mainRun okGA awFailCampaigns envW "c" =
      ((Phase1.createCampaignBudget okGA "bu" "c").1 ++
       (Phase1.createCampaign awFailCampaigns "cu" "20260101" "20261231" sampleRow.campaign_budget.id).1,
       Except.error (Err.remote "boom")) ∧
    Phase1.mainRun okGA awFailAdGroups envW "c" =
      ((Phase1.createCampaignBudget okGA "bu" "c").1 ++
       (Phase1.createCampaign awFailAdGroups "cu" "20260101" "20261231" sampleRow.campaign_budget.id).1 ++
       (Phase1.createAdGroup awFailAdGroups "gu" 21).1,
       Except.error (Err.remote "boom")) ∧
    Phase1.mainRun okGA awFailAds envW "c" =
      ((Phase1.createCampaignBudget okGA "bu" "c").1 ++
       (Phase1.createCampaign awFailAds "cu" "20260101" "20261231" sampleRow.campaign_budget.id).1 ++
       (Phase1.createAdGroup awFailAds "gu" 21).1 ++
       (Phase1.createTextAds awFailAds (fun i => toString i) 22).1,
       Except.error (Err.remote "boom")) ∧
    Phase1.mainRun okGA awFailCriteria envW "c" =
      ((Phase1.createCampaignBudget okGA "bu" "c").1 ++
       (Phase1.createCampaign awFailCriteria "cu" "20260101" "20261231" sampleRow.campaign_budget.id).1 ++
       (Phase1.createAdGroup awFailCriteria "gu" 21).1 ++
       (Phase1.createTextAds awFailCriteria (fun i => toString i) 22).1 ++
       (Phase1.createKeywords awFailCriteria 22 Phase1.KEYWORDS_TO_ADD).1,
       Except.error (Err.remote "boom")) :=
  ⟨(step_failure_aborts_pipeline gaFailBudget okAW envW "c" (Err.remote "boom")).1 _ rfl,
   (step_failure_aborts_pipeline gaFailCampaigns okAW envW "c" (Err.remote "boom")).2.1
     _ sampleRow.campaign_budget _ rfl rfl,
   (step_failure_aborts_pipeline gaFailAdGroups okAW envW "c" (Err.remote "boom")).2.2.1
     _ sampleRow.campaign_budget _ sampleRow.campaign _ rfl rfl rfl,
   (step_failure_aborts_pipeline gaFailAds okAW envW "c" (Err.remote "boom")).2.2.2.1
     _ sampleRow.campaign_budget _ sampleRow.campaign _ sampleRow.ad_group _ rfl rfl rfl rfl,
   (step_failure_aborts_pipeline gaFailCriteria okAW envW "c" (Err.remote "boom")).2.2.2.2.1
     _ sampleRow.campaign_budget _ sampleRow.campaign _ sampleRow.ad_group _ _ rfl rfl rfl rfl rfl,
   (step_failure_aborts_pipeline gaFailBudget okAW envW "c" (Err.remote "boom")).2.2.2.2.2.1 _ rfl,
   (step_failure_aborts_pipeline okGA awFailCampaigns envW "c" (Err.remote "boom")).2.2.2.2.2.2.1
     _ sampleRow.campaign_budget _ rfl rfl,
   (step_failure_aborts_pipeline okGA awFailAdGroups envW "c" (Err.remote "boom")).2.2.2.2.2.2.2.1
     _ sampleRow.campaign_budget _ 21 _ rfl rfl rfl,
   (step_failure_aborts_pipeline okGA awFailAds envW "c" (Err.remote "boom")).2.2.2.2.2.2.2.2.1
     _ sampleRow.campaign_budget _ 21 _ 22 _ rfl rfl rfl rfl,
   (step_failure_aborts_pipeline okGA awFailCriteria envW "c" (Err.remote "boom")).2.2.2.2.2.2.2.2.2
     _ sampleRow.campaign_budget _ 21 _ 22 _ _ rfl rfl rfl rfl rfl⟩

/-- C5 as stated fails on the Phase1 script: called with the three-element
keywords argument `["a", "b", "c"]`, Phase1 `createKeywords` does not build
one operation per element of that list — the single batch it submits holds
the two operations built from the module constant
`KEYWORDS_TO_ADD = ['mars cruise', 'space hotel']`. -/
theorem createKeywords_per_argument_cex :
    ¬ (∃ ops, ((Phase1.createKeywords okAW 7 ["a", "b", "c"]).1).filterMap awKwOpsOf = [ops] ∧
        ops.map (fun o => o.operand.criterion.text) = ["a", "b", "c"]) := by
  rintro ⟨ops, h1, h2⟩
  have he : ((Phase1.createKeywords okAW 7 ["a", "b", "c"]).1).filterMap awKwOpsOf =
      [Phase1.KEYWORDS_TO_ADD.map fun keyword => Phase1.keywordOperationAW 7 keyword] := rfl
  rw [he] at h1
  have hops : Phase1.KEYWORDS_TO_ADD.map (fun keyword => Phase1.keywordOperationAW 7 keyword) = ops := by
    simpa using h1
  rw [← hops] at h2
  exact absurd h2 (by decide)

/-- C5 amended: the ApiOnly script's `createKeywords` submits, in a single
batch mutate to the criterion service, exactly one creation operation per
element of its keywords argument, in list order (the operations' texts are
the argument list itself); the Phase1 script's `createKeywords` submits, in
a single batch mutate, one operation per element of the module constant
`KEYWORDS_TO_ADD`, whatever its keywords argument is. -/
theorem createKeywords_batch_semantics (gaSrv : GAServer) (awSrv : AWServer)
    (cid : String) (g : AdGroup) (adGroupId : Nat) (kws karg : List String) :
    ((ApiOnly.createKeywords gaSrv cid g kws).1).filterMap criterionOpsOf =
      [kws.map fun keyword => ApiOnly.keywordOperation g.resource_name keyword] ∧
    (kws.map fun keyword => ApiOnly.keywordOperation g.resource_name keyword).map
      (fun o => o.create.keyword_text) = kws ∧
    ((Phase1.createKeywords awSrv adGroupId karg).1).filterMap awKwOpsOf =
      [Phase1.KEYWORDS_TO_ADD.map fun keyword => Phase1.keywordOperationAW adGroupId keyword] := by
  refine ⟨apiOnly_createKeywords_kwOps gaSrv cid g kws, ?_,
    phase1_createKeywords_kwOps awSrv adGroupId karg⟩
  rw [List.map_map]
  exact List.map_id' kws

/-- C8 as stated fails at the text-ads step of the ApiOnly script: the step
extracts a resource name from every entry of the mutate response, not only
the first, and its only follow-up read queries for all five extracted names
at once — on `okGA` the search query is built over
`["ads/0", ..., "ads/4"]`, which is not the query over just the first
entry's resource name. -/
theorem create_then_fetch_first_entry_cex :
    (ApiOnly.createTextAds okGA (fun i => toString i) "c" sampleRow.ad_group).1 =
      [Event.mutateAdGroupAds "c" ((List.range ApiOnly.NUMBER_OF_ADS).map fun i =>
         ApiOnly.adGroupAdOperation (toString i) sampleRow.ad_group.resource_name),
       Event.searchGA "c" (ApiOnly.adsQuery ["ads/0", "ads/1", "ads/2", "ads/3", "ads/4"])
         ApiOnly.PAGE_SIZE] ∧
    ApiOnly.adsQuery ["ads/0", "ads/1", "ads/2", "ads/3", "ads/4"] ≠
      ApiOnly.adsQuery ["ads/0"] :=
  ⟨rfl, by decide⟩

/-- C8 amended: the single-resource steps (budget, campaign, ad group in
the ApiOnly script; budget, campaign, ad group in the Phase1 script)
(a) build their creation request from static/templated values plus the
parent identifier, (b) submit it, (c) extract the returned identifier from
the first entry of the mutate response — a resource name on the Google Ads
API, the numeric `id` on the AdWords API — and (d), when a follow-up read
is performed (the Google Ads steps; the AdWords steps perform none), query
exactly that resource name and return the first fetched row's entity.  The
batch steps of the ApiOnly script (text ads, keywords) instead extract one
resource name per submitted operation — entries `0 .. n-1` of the response
— and their follow-up reads query exactly that list of names; the Phase1
batch steps issue no follow-up read at all. -/
theorem create_then_fetch_contract (srv : GAServer) (awSrv : AWServer)
    (u sd ed cid rn : String) (uuidf : Nat → String) (b : CampaignBudget)
    (g : AdGroup) (resp : MutateResponse) (r : MutateResult)
    (rest : List MutateResult) (row : GoogleAdsRow) (rows : List GoogleAdsRow)
    (names : List String) (bid cmpId agid : Nat) (aw : AWCreatedEntity)
    (awRest : List AWCreatedEntity) (kws : List String) :
    (srv.mutate_campaign_budgets cid [ApiOnly.budgetOperation u] = Except.ok resp →
      resp.results = r :: rest →
      ApiOnly.createCampaignBudget srv u cid =
        (Event.mutateCampaignBudgets cid [ApiOnly.budgetOperation u] ::
           (ApiOnly.getCampaignBudget srv cid r.resource_name).1,
         (ApiOnly.getCampaignBudget srv cid r.resource_name).2)) ∧
    (srv.search cid (ApiOnly.budgetQuery rn) ApiOnly.PAGE_SIZE = Except.ok (row :: rows) →
      ApiOnly.getCampaignBudget srv cid rn =
        ([Event.searchGA cid (ApiOnly.budgetQuery rn) ApiOnly.PAGE_SIZE],
         Except.ok row.campaign_budget)) ∧
    (srv.mutate_campaigns cid [ApiOnly.campaignOperation u sd ed b.resource_name] = Except.ok resp →
      resp.results = r :: rest →
      ApiOnly.createCampaign srv u sd ed cid b =
        (Event.mutateCampaigns cid [ApiOnly.campaignOperation u sd ed b.resource_name] ::
           (ApiOnly.getCampaign srv cid r.resource_name).1,
         (ApiOnly.getCampaign srv cid r.resource_name).2)) ∧
    (srv.search cid (ApiOnly.campaignQuery rn) ApiOnly.PAGE_SIZE = Except.ok (row :: rows) →
      ApiOnly.getCampaign srv cid rn =
        ([Event.searchGA cid (ApiOnly.campaignQuery rn) ApiOnly.PAGE_SIZE],
         Except.ok row.campaign)) ∧
    (srv.mutate_ad_groups cid [ApiOnly.adGroupOperation u rn] = Except.ok resp →
      resp.results = r :: rest →
      ApiOnly.createAdGroup srv u cid { id := 0, name := "", resource_name := rn } =
        (Event.mutateAdGroups cid [ApiOnly.adGroupOperation u rn] ::
           (ApiOnly.getAdGroup srv cid r.resource_name).1,
         (ApiOnly.getAdGroup srv cid r.resource_name).2)) ∧
    (srv.search cid (ApiOnly.adGroupQuery rn) ApiOnly.PAGE_SIZE = Except.ok (row :: rows) →
      ApiOnly.getAdGroup srv cid rn =
        ([Event.searchGA cid (ApiOnly.adGroupQuery rn) ApiOnly.PAGE_SIZE],
         Except.ok row.ad_group)) ∧
    (srv.mutate_ad_group_ads cid ((List.range ApiOnly.NUMBER_OF_ADS).map fun i =>
        ApiOnly.adGroupAdOperation (uuidf i) g.resource_name) = Except.ok resp →
      extractNames resp.results ApiOnly.NUMBER_OF_ADS = Except.ok names →
      names = (resp.results.take ApiOnly.NUMBER_OF_ADS).map (fun mr => mr.resource_name) ∧
      names.length = ApiOnly.NUMBER_OF_ADS ∧
      (ApiOnly.createTextAds srv uuidf cid g).1 =
        [Event.mutateAdGroupAds cid ((List.range ApiOnly.NUMBER_OF_ADS).map fun i =>
           ApiOnly.adGroupAdOperation (uuidf i) g.resource_name),
         Event.searchGA cid (ApiOnly.adsQuery names) ApiOnly.PAGE_SIZE]) ∧
    (srv.mutate_ad_group_criteria cid (kws.map fun keyword =>
        ApiOnly.keywordOperation g.resource_name keyword) = Except.ok resp →
      extractNames resp.results kws.length = Except.ok names →
      names = (resp.results.take kws.length).map (fun mr => mr.resource_name) ∧
      names.length = kws.length ∧
      (ApiOnly.createKeywords srv cid g kws).1 =
        [Event.mutateAdGroupCriteria cid (kws.map fun keyword =>
           ApiOnly.keywordOperation g.resource_name keyword),
         Event.searchGA cid (ApiOnly.keywordsQuery names) ApiOnly.PAGE_SIZE]) ∧
    (srv.mutate_campaign_budgets cid [Phase1.budgetOperation u] = Except.ok resp →
      resp.results = r :: rest →
      Phase1.createCampaignBudget srv u cid =
        (Event.mutateCampaignBudgets cid [Phase1.budgetOperation u] ::
           (Phase1.getCampaignBudget srv cid r.resource_name).1,
         (Phase1.getCampaignBudget srv cid r.resource_name).2)) ∧
    (awSrv.campaignMutate [Phase1.campaignOperationAW u sd ed bid] = Except.ok (aw :: awRest) →
      Phase1.createCampaign awSrv u sd ed bid =
        ([Event.awMutateCampaigns [Phase1.campaignOperationAW u sd ed bid]],
         Except.ok aw.id)) ∧
    (awSrv.adGroupMutate [Phase1.adGroupOperationAW u cmpId] = Except.ok (aw :: awRest) →
      Phase1.createAdGroup awSrv u cmpId =
        ([Event.awMutateAdGroups [Phase1.adGroupOperationAW u cmpId]],
         Except.ok aw.id)) ∧
    (Phase1.createTextAds awSrv uuidf agid).1 =
      [Event.awMutateAdGroupAds ((List.range Phase1.NUMBER_OF_ADS).map fun i =>
        Phase1.adOperationAW (uuidf i) agid)] ∧
    (Phase1.createKeywords awSrv agid kws).1 =
      [Event.awMutateAdGroupCriteria (Phase1.KEYWORDS_TO_ADD.map fun keyword =>
        Phase1.keywordOperationAW agid keyword)] := by
  refine ⟨?_, ?_, ?_, ?_, ?_, ?_, ?_, ?_, ?_, ?_, ?_, rfl, rfl⟩
  · intro hm hr
    unfold ApiOnly.createCampaignBudget; dsimp only; rw [hm]; dsimp only; rw [hr]
  · intro hs
    unfold ApiOnly.getCampaignBudget; dsimp only; rw [hs]
  · intro hm hr
    unfold ApiOnly.createCampaign; dsimp only; rw [hm]; dsimp only; rw [hr]
  · intro hs
    unfold ApiOnly.getCampaign; dsimp only; rw [hs]
  · intro hm hr
    unfold ApiOnly.createAdGroup; dsimp only; rw [hm]; dsimp only; rw [hr]
  · intro hs
    unfold ApiOnly.getAdGroup; dsimp only; rw [hs]
  · intro hm hx
    obtain ⟨hnames, hlen⟩ := extractNames_ok resp.results ApiOnly.NUMBER_OF_ADS names hx
    refine ⟨hnames, hlen, ?_⟩
    unfold ApiOnly.createTextAds; dsimp only; rw [hm]; dsimp only; rw [hx]
    rfl
  · intro hm hx
    obtain ⟨hnames, hlen⟩ := extractNames_ok resp.results kws.length names hx
    refine ⟨hnames, hlen, ?_⟩
    unfold ApiOnly.createKeywords; dsimp only; rw [hm]; dsimp only; rw [hx]
    rfl
  · intro hm hr
    unfold Phase1.createCampaignBudget; dsimp only; rw [hm]; dsimp only; rw [hr]
  · intro hm
    unfold Phase1.createCampaign; dsimp only; rw [hm]
  · intro hm
    unfold Phase1.createAdGroup; dsimp only; rw [hm]

/-- Exercises the amended C8 on concrete servers: the budget step's
create-then-fetch shape, the text-ads step's query over all five extracted
names, and the Phase1 campaign step's extraction of the numeric id of the
first mutate result. -/
theorem create_then_fetch_contract_witness :
    ApiOnly.createCampaignBudget okGA "bu" "c" =
      (Event.mutateCampaignBudgets "c" [ApiOnly.budgetOperation "bu"] ::
         (ApiOnly.getCampaignBudget okGA "c" "customers/7/campaignBudgets/1").1,
       (ApiOnly.getCampaignBudget okGA "c" "customers/7/campaignBudgets/1").2) ∧
    (ApiOnly.createTextAds okGA (fun i => toString i) "c" sampleRow.ad_group).1 =
      [Event.mutateAdGroupAds "c" ((List.range ApiOnly.NUMBER_OF_ADS).map fun i =>
         ApiOnly.adGroupAdOperation (toString i) sampleRow.ad_group.resource_name),
       Event.searchGA "c" (ApiOnly.adsQuery ["ads/0", "ads/1", "ads/2", "ads/3", "ads/4"])
         ApiOnly.PAGE_SIZE] ∧
    Phase1.createCampaign okAW "cu" "20260101" "20261231" 10 =
      ([Event.awMutateCampaigns [Phase1.campaignOperationAW "cu" "20260101" "20261231" 10]],
       Except.ok 21) :=
  ⟨(create_then_fetch_contract okGA okAW "bu" "sd" "ed" "c" "rn" (fun i => toString i)
      sampleRow.campaign_budget sampleRow.ad_group
      { results := [{ resource_name := "customers/7/campaignBudgets/1" }] }
      { resource_name := "customers/7/campaignBudgets/1" } [] sampleRow [] []
      10 21 22 { id := 21, name := "C" } [] []).1 rfl rfl,
   ((create_then_fetch_contract okGA okAW "bu" "sd" "ed" "c" "rn" (fun i => toString i)
      sampleRow.campaign_budget sampleRow.ad_group
      { results := [{ resource_name := "ads/0" }, { resource_name := "ads/1" },
        { resource_name := "ads/2" }, { resource_name := "ads/3" }, { resource_name := "ads/4" }] }
      { resource_name := "ads/0" } [] sampleRow []
      ["ads/0", "ads/1", "ads/2", "ads/3", "ads/4"]
      10 21 22 { id := 21, name := "C" } [] []).2.2.2.2.2.2.1 rfl rfl).2.2,
   (create_then_fetch_contract okGA okAW "cu" "20260101" "20261231" "c" "rn" (fun i => toString i)
      sampleRow.campaign_budget sampleRow.ad_group
      { results := [{ resource_name := "customers/7/campaignBudgets/1" }] }
      { resource_name := "customers/7/campaignBudgets/1" } [] sampleRow [] []
      10 21 22 { id := 21, name := "C" } [] []).2.2.2.2.2.2.2.2.2.1 rfl⟩
